import Mathlib

/-!
The libbid conversion data tables.

A shallow embedding of `libgcc/config/libbid/bid_convert_data.c`: the three constant
tables `convert_table`, `packed_10000_zeros` and `factors`, the lookup expressions that
the comments of that file document, and properties of the stored data. The decomposition
engine and the rounding kernel that consume the tables are not part of that file; they are
modelled after their specification, and each such definition says so.

The C arrays are embedded as lists of natural numbers with the same nesting as the C
declarations; `UINT32`, `UINT8` and `SINT8` entries are all non-negative literals and
are embedded as `Nat`.
-/

namespace Libbid

/-! ## The tables -/

/-- Block 0 of `convert_table`: the 128 rows `convert_table[0][k]`. -/
def convert_table_block0 : List (List Nat) :=
  [
   [0, 0], [67108864, 0], [34217728, 1], [1326592, 2], [68435456, 2], [35544320, 3],
   [2653184, 4], [69762048, 4], [36870912, 5], [3979776, 6], [71088640, 6], [38197504, 7],
   [5306368, 8], [72415232, 8], [39524096, 9], [6632960, 10], [73741824, 10], [40850688, 11],
   [7959552, 12], [75068416, 12], [42177280, 13], [9286144, 14], [76395008, 14],
   [43503872, 15], [10612736, 16], [77721600, 16], [44830464, 17], [11939328, 18],
   [79048192, 18], [46157056, 19], [13265920, 20], [80374784, 20], [47483648, 21],
   [14592512, 22], [81701376, 22], [48810240, 23], [15919104, 24], [83027968, 24],
   [50136832, 25], [17245696, 26], [84354560, 26], [51463424, 27], [18572288, 28],
   [85681152, 28], [52790016, 29], [19898880, 30], [87007744, 30], [54116608, 31],
   [21225472, 32], [88334336, 32], [55443200, 33], [22552064, 34], [89660928, 34],
   [56769792, 35], [23878656, 36], [90987520, 36], [58096384, 37], [25205248, 38],
   [92314112, 38], [59422976, 39], [26531840, 40], [93640704, 40], [60749568, 41],
   [27858432, 42], [94967296, 42], [62076160, 43], [29185024, 44], [96293888, 44],
   [63402752, 45], [30511616, 46], [97620480, 46], [64729344, 47], [31838208, 48],
   [98947072, 48], [66055936, 49], [33164800, 50], [273664, 51], [67382528, 51],
   [34491392, 52], [1600256, 53], [68709120, 53], [35817984, 54], [2926848, 55],
   [70035712, 55], [37144576, 56], [4253440, 57], [71362304, 57], [38471168, 58],
   [5580032, 59], [72688896, 59], [39797760, 60], [6906624, 61], [74015488, 61],
   [41124352, 62], [8233216, 63], [75342080, 63], [42450944, 64], [9559808, 65],
   [76668672, 65], [43777536, 66], [10886400, 67], [77995264, 67], [45104128, 68],
   [12212992, 69], [79321856, 69], [46430720, 70], [13539584, 71], [80648448, 71],
   [47757312, 72], [14866176, 73], [81975040, 73], [49083904, 74], [16192768, 75],
   [83301632, 75], [50410496, 76], [17519360, 77], [84628224, 77], [51737088, 78],
   [18845952, 79], [85954816, 79], [53063680, 80], [20172544, 81], [87281408, 81],
   [54390272, 82], [21499136, 83], [88608000, 83], [55716864, 84], [22825728, 85]
  ]

/-- Block 1 of `convert_table`: the 128 rows `convert_table[1][k]`. -/
def convert_table_block1 : List (List Nat) :=
  [
   [0, 0], [89934592, 85], [79869184, 171], [69803776, 257], [59738368, 343], [49672960, 429],
   [39607552, 515], [29542144, 601], [19476736, 687], [9411328, 773], [99345920, 858],
   [89280512, 944], [79215104, 1030], [69149696, 1116], [59084288, 1202], [49018880, 1288],
   [38953472, 1374], [28888064, 1460], [18822656, 1546], [8757248, 1632], [98691840, 1717],
   [88626432, 1803], [78561024, 1889], [68495616, 1975], [58430208, 2061], [48364800, 2147],
   [38299392, 2233], [28233984, 2319], [18168576, 2405], [8103168, 2491], [98037760, 2576],
   [87972352, 2662], [77906944, 2748], [67841536, 2834], [57776128, 2920], [47710720, 3006],
   [37645312, 3092], [27579904, 3178], [17514496, 3264], [7449088, 3350], [97383680, 3435],
   [87318272, 3521], [77252864, 3607], [67187456, 3693], [57122048, 3779], [47056640, 3865],
   [36991232, 3951], [26925824, 4037], [16860416, 4123], [6795008, 4209], [96729600, 4294],
   [86664192, 4380], [76598784, 4466], [66533376, 4552], [56467968, 4638], [46402560, 4724],
   [36337152, 4810], [26271744, 4896], [16206336, 4982], [6140928, 5068], [96075520, 5153],
   [86010112, 5239], [75944704, 5325], [65879296, 5411], [55813888, 5497], [45748480, 5583],
   [35683072, 5669], [25617664, 5755], [15552256, 5841], [5486848, 5927], [95421440, 6012],
   [85356032, 6098], [75290624, 6184], [65225216, 6270], [55159808, 6356], [45094400, 6442],
   [35028992, 6528], [24963584, 6614], [14898176, 6700], [4832768, 6786], [94767360, 6871],
   [84701952, 6957], [74636544, 7043], [64571136, 7129], [54505728, 7215], [44440320, 7301],
   [34374912, 7387], [24309504, 7473], [14244096, 7559], [4178688, 7645], [94113280, 7730],
   [84047872, 7816], [73982464, 7902], [63917056, 7988], [53851648, 8074], [43786240, 8160],
   [33720832, 8246], [23655424, 8332], [13590016, 8418], [3524608, 8504], [93459200, 8589],
   [83393792, 8675], [73328384, 8761], [63262976, 8847], [53197568, 8933], [43132160, 9019],
   [33066752, 9105], [23001344, 9191], [12935936, 9277], [2870528, 9363], [92805120, 9448],
   [82739712, 9534], [72674304, 9620], [62608896, 9706], [52543488, 9792], [42478080, 9878],
   [32412672, 9964], [22347264, 10050], [12281856, 10136], [2216448, 10222], [92151040, 10307],
   [82085632, 10393], [72020224, 10479], [61954816, 10565], [51889408, 10651],
   [41824000, 10737], [31758592, 10823], [21693184, 10909]
  ]

/-- Block 2 of `convert_table`: the 128 rows `convert_table[2][k]`. -/
def convert_table_block2 : List (List Nat) :=
  [
   [0, 0], [11627776, 10995], [23255552, 21990], [34883328, 32985], [46511104, 43980],
   [58138880, 54975], [69766656, 65970], [81394432, 76965], [93022208, 87960],
   [4649984, 98956], [16277760, 109951], [27905536, 120946], [39533312, 131941],
   [51161088, 142936], [62788864, 153931], [74416640, 164926], [86044416, 175921],
   [97672192, 186916], [9299968, 197912], [20927744, 208907], [32555520, 219902],
   [44183296, 230897], [55811072, 241892], [67438848, 252887], [79066624, 263882],
   [90694400, 274877], [2322176, 285873], [13949952, 296868], [25577728, 307863],
   [37205504, 318858], [48833280, 329853], [60461056, 340848], [72088832, 351843],
   [83716608, 362838], [95344384, 373833], [6972160, 384829], [18599936, 395824],
   [30227712, 406819], [41855488, 417814], [53483264, 428809], [65111040, 439804],
   [76738816, 450799], [88366592, 461794], [99994368, 472789], [11622144, 483785],
   [23249920, 494780], [34877696, 505775], [46505472, 516770], [58133248, 527765],
   [69761024, 538760], [81388800, 549755], [93016576, 560750], [4644352, 571746],
   [16272128, 582741], [27899904, 593736], [39527680, 604731], [51155456, 615726],
   [62783232, 626721], [74411008, 637716], [86038784, 648711], [97666560, 659706],
   [9294336, 670702], [20922112, 681697], [32549888, 692692], [44177664, 703687],
   [55805440, 714682], [67433216, 725677], [79060992, 736672], [90688768, 747667],
   [2316544, 758663], [13944320, 769658], [25572096, 780653], [37199872, 791648],
   [48827648, 802643], [60455424, 813638], [72083200, 824633], [83710976, 835628],
   [95338752, 846623], [6966528, 857619], [18594304, 868614], [30222080, 879609],
   [41849856, 890604], [53477632, 901599], [65105408, 912594], [76733184, 923589],
   [88360960, 934584], [99988736, 945579], [11616512, 956575], [23244288, 967570],
   [34872064, 978565], [46499840, 989560], [58127616, 1000555], [69755392, 1011550],
   [81383168, 1022545], [93010944, 1033540], [4638720, 1044536], [16266496, 1055531],
   [27894272, 1066526], [39522048, 1077521], [51149824, 1088516], [62777600, 1099511],
   [74405376, 1110506], [86033152, 1121501], [97660928, 1132496], [9288704, 1143492],
   [20916480, 1154487], [32544256, 1165482], [44172032, 1176477], [55799808, 1187472],
   [67427584, 1198467], [79055360, 1209462], [90683136, 1220457], [2310912, 1231453],
   [13938688, 1242448], [25566464, 1253443], [37194240, 1264438], [48822016, 1275433],
   [60449792, 1286428], [72077568, 1297423], [83705344, 1308418], [95333120, 1319413],
   [6960896, 1330409], [18588672, 1341404], [30216448, 1352399], [41844224, 1363394],
   [53472000, 1374389], [65099776, 1385384], [76727552, 1396379]
  ]

/-- Block 3 of `convert_table`: the 128 rows `convert_table[3][k]`. -/
def convert_table_block3 : List (List Nat) :=
  [
   [0, 0], [88355328, 1407374], [76710656, 2814749], [65065984, 4222124], [53421312, 5629499],
   [41776640, 7036874], [30131968, 8444249], [18487296, 9851624], [6842624, 11258999],
   [95197952, 12666373], [83553280, 14073748], [71908608, 15481123], [60263936, 16888498],
   [48619264, 18295873], [36974592, 19703248], [25329920, 21110623], [13685248, 22517998],
   [2040576, 23925373], [90395904, 25332747], [78751232, 26740122], [67106560, 28147497],
   [55461888, 29554872], [43817216, 30962247], [32172544, 32369622], [20527872, 33776997],
   [8883200, 35184372], [97238528, 36591746], [85593856, 37999121], [73949184, 39406496],
   [62304512, 40813871], [50659840, 42221246], [39015168, 43628621], [27370496, 45035996],
   [15725824, 46443371], [4081152, 47850746], [92436480, 49258120], [80791808, 50665495],
   [69147136, 52072870], [57502464, 53480245], [45857792, 54887620], [34213120, 56294995],
   [22568448, 57702370], [10923776, 59109745], [99279104, 60517119], [87634432, 61924494],
   [75989760, 63331869], [64345088, 64739244], [52700416, 66146619], [41055744, 67553994],
   [29411072, 68961369], [17766400, 70368744], [6121728, 71776119], [94477056, 73183493],
   [82832384, 74590868], [71187712, 75998243], [59543040, 77405618], [47898368, 78812993],
   [36253696, 80220368], [24609024, 81627743], [12964352, 83035118], [1319680, 84442493],
   [89675008, 85849867], [78030336, 87257242], [66385664, 88664617], [54740992, 90071992],
   [43096320, 91479367], [31451648, 92886742], [19806976, 94294117], [8162304, 95701492],
   [96517632, 97108866], [84872960, 98516241], [73228288, 99923616], [61583616, 1330991],
   [49938944, 2738366], [38294272, 4145741], [26649600, 5553116], [15004928, 6960491],
   [3360256, 8367866], [91715584, 9775240], [80070912, 11182615], [68426240, 12589990],
   [56781568, 13997365], [45136896, 15404740], [33492224, 16812115], [21847552, 18219490],
   [10202880, 19626865], [98558208, 21034239], [86913536, 22441614], [75268864, 23848989],
   [63624192, 25256364], [51979520, 26663739], [40334848, 28071114], [28690176, 29478489],
   [17045504, 30885864], [5400832, 32293239], [93756160, 33700613], [82111488, 35107988],
   [70466816, 36515363], [58822144, 37922738], [47177472, 39330113], [35532800, 40737488],
   [23888128, 42144863], [12243456, 43552238], [598784, 44959613], [88954112, 46366987],
   [77309440, 47774362], [65664768, 49181737], [54020096, 50589112], [42375424, 51996487],
   [30730752, 53403862], [19086080, 54811237], [7441408, 56218612], [95796736, 57625986],
   [84152064, 59033361], [72507392, 60440736], [60862720, 61848111], [49218048, 63255486],
   [37573376, 64662861], [25928704, 66070236], [14284032, 67477611], [2639360, 68884986],
   [90994688, 70292360], [79350016, 71699735], [67705344, 73107110], [56060672, 74514485],
   [44416000, 75921860], [32771328, 77329235], [21126656, 78736610]
  ]

/-- Block 4 of `convert_table`: the 128 rows `convert_table[4][k]`. -/
def convert_table_block4 : List (List Nat) :=
  [
   [0, 0], [9481984, 80143985], [18963968, 60287970], [28445952, 40431955],
   [37927936, 20575940], [47409920, 719925], [56891904, 80863910], [66373888, 61007895],
   [75855872, 41151880], [85337856, 21295865], [94819840, 1439850], [4301824, 81583836],
   [13783808, 61727821], [23265792, 41871806], [32747776, 22015791], [42229760, 2159776],
   [51711744, 82303761], [61193728, 62447746], [70675712, 42591731], [80157696, 22735716],
   [89639680, 2879701], [99121664, 83023686], [8603648, 63167672], [18085632, 43311657],
   [27567616, 23455642], [37049600, 3599627], [46531584, 83743612], [56013568, 63887597],
   [65495552, 44031582], [74977536, 24175567], [84459520, 4319552], [93941504, 84463537],
   [3423488, 64607523], [12905472, 44751508], [22387456, 24895493], [31869440, 5039478],
   [41351424, 85183463], [50833408, 65327448], [60315392, 45471433], [69797376, 25615418],
   [79279360, 5759403], [88761344, 85903388], [98243328, 66047373], [7725312, 46191359],
   [17207296, 26335344], [26689280, 6479329], [36171264, 86623314], [45653248, 66767299],
   [55135232, 46911284], [64617216, 27055269], [74099200, 7199254], [83581184, 87343239],
   [93063168, 67487224], [2545152, 47631210], [12027136, 27775195], [21509120, 7919180],
   [30991104, 88063165], [40473088, 68207150], [49955072, 48351135], [59437056, 28495120],
   [68919040, 8639105], [78401024, 88783090], [87883008, 68927075], [97364992, 49071060],
   [6846976, 29215046], [16328960, 9359031], [25810944, 89503016], [35292928, 69647001],
   [44774912, 49790986], [54256896, 29934971], [63738880, 10078956], [73220864, 90222941],
   [82702848, 70366926], [92184832, 50510911], [1666816, 30654897], [11148800, 10798882],
   [20630784, 90942867], [30112768, 71086852], [39594752, 51230837], [49076736, 31374822],
   [58558720, 11518807], [68040704, 91662792], [77522688, 71806777], [87004672, 51950762],
   [96486656, 32094747], [5968640, 12238733], [15450624, 92382718], [24932608, 72526703],
   [34414592, 52670688], [43896576, 32814673], [53378560, 12958658], [62860544, 93102643],
   [72342528, 73246628], [81824512, 53390613], [91306496, 33534598], [788480, 13678584],
   [10270464, 93822569], [19752448, 73966554], [29234432, 54110539], [38716416, 34254524],
   [48198400, 14398509], [57680384, 94542494], [67162368, 74686479], [76644352, 54830464],
   [86126336, 34974449], [95608320, 15118434], [5090304, 95262420], [14572288, 75406405],
   [24054272, 55550390], [33536256, 35694375], [43018240, 15838360], [52500224, 95982345],
   [61982208, 76126330], [71464192, 56270315], [80946176, 36414300], [90428160, 16558285],
   [99910144, 96702270], [9392128, 76846256], [18874112, 56990241], [28356096, 37134226],
   [37838080, 17278211], [47320064, 97422196], [56802048, 77566181], [66284032, 57710166],
   [75766016, 37854151], [85248000, 17998136], [94729984, 98142121], [4211968, 78286107]
  ]

/-- The table `const UINT32 convert_table[5][128][2]`. -/
def convert_table : List (List (List Nat)) :=
  [convert_table_block0, convert_table_block1, convert_table_block2, convert_table_block3,
   convert_table_block4]

/-- The table `const UINT8 packed_10000_zeros[]`. -/
def packed_10000_zeros : List Nat :=
  [
   0x3, 0x4, 0x10, 0x40, 0x0, 0x1, 0x4, 0x10, 0x40, 0x0, 0x1, 0x4, 0x20, 0x40, 0x0, 0x1, 0x4,
   0x10, 0x40, 0x0, 0x1, 0x4, 0x10, 0x40, 0x0, 0x2, 0x4, 0x10, 0x40, 0x0, 0x1, 0x4, 0x10, 0x40,
   0x0, 0x1, 0x4, 0x20, 0x40, 0x0, 0x1, 0x4, 0x10, 0x40, 0x0, 0x1, 0x4, 0x10, 0x40, 0x0, 0x2,
   0x4, 0x10, 0x40, 0x0, 0x1, 0x4, 0x10, 0x40, 0x0, 0x1, 0x4, 0x20, 0x40, 0x0, 0x1, 0x4, 0x10,
   0x40, 0x0, 0x1, 0x4, 0x10, 0x40, 0x0, 0x2, 0x4, 0x10, 0x40, 0x0, 0x1, 0x4, 0x10, 0x40, 0x0,
   0x1, 0x4, 0x20, 0x40, 0x0, 0x1, 0x4, 0x10, 0x40, 0x0, 0x1, 0x4, 0x10, 0x40, 0x0, 0x2, 0x4,
   0x10, 0x40, 0x0, 0x1, 0x4, 0x10, 0x40, 0x0, 0x1, 0x4, 0x20, 0x40, 0x0, 0x1, 0x4, 0x10, 0x40,
   0x0, 0x1, 0x4, 0x10, 0x40, 0x0, 0x3, 0x4, 0x10, 0x40, 0x0, 0x1, 0x4, 0x10, 0x40, 0x0, 0x1,
   0x4, 0x20, 0x40, 0x0, 0x1, 0x4, 0x10, 0x40, 0x0, 0x1, 0x4, 0x10, 0x40, 0x0, 0x2, 0x4, 0x10,
   0x40, 0x0, 0x1, 0x4, 0x10, 0x40, 0x0, 0x1, 0x4, 0x20, 0x40, 0x0, 0x1, 0x4, 0x10, 0x40, 0x0,
   0x1, 0x4, 0x10, 0x40, 0x0, 0x2, 0x4, 0x10, 0x40, 0x0, 0x1, 0x4, 0x10, 0x40, 0x0, 0x1, 0x4,
   0x20, 0x40, 0x0, 0x1, 0x4, 0x10, 0x40, 0x0, 0x1, 0x4, 0x10, 0x40, 0x0, 0x2, 0x4, 0x10, 0x40,
   0x0, 0x1, 0x4, 0x10, 0x40, 0x0, 0x1, 0x4, 0x20, 0x40, 0x0, 0x1, 0x4, 0x10, 0x40, 0x0, 0x1,
   0x4, 0x10, 0x40, 0x0, 0x2, 0x4, 0x10, 0x40, 0x0, 0x1, 0x4, 0x10, 0x40, 0x0, 0x1, 0x4, 0x20,
   0x40, 0x0, 0x1, 0x4, 0x10, 0x40, 0x0, 0x1, 0x4, 0x10, 0x40, 0x0, 0x3, 0x4, 0x10, 0x40, 0x0,
   0x1, 0x4, 0x10, 0x40, 0x0, 0x1, 0x4, 0x20, 0x40, 0x0, 0x1, 0x4, 0x10, 0x40, 0x0, 0x1, 0x4,
   0x10, 0x40, 0x0, 0x2, 0x4, 0x10, 0x40, 0x0, 0x1, 0x4, 0x10, 0x40, 0x0, 0x1, 0x4, 0x20, 0x40,
   0x0, 0x1, 0x4, 0x10, 0x40, 0x0, 0x1, 0x4, 0x10, 0x40, 0x0, 0x2, 0x4, 0x10, 0x40, 0x0, 0x1,
   0x4, 0x10, 0x40, 0x0, 0x1, 0x4, 0x20, 0x40, 0x0, 0x1, 0x4, 0x10, 0x40, 0x0, 0x1, 0x4, 0x10,
   0x40, 0x0, 0x2, 0x4, 0x10, 0x40, 0x0, 0x1, 0x4, 0x10, 0x40, 0x0, 0x1, 0x4, 0x20, 0x40, 0x0,
   0x1, 0x4, 0x10, 0x40, 0x0, 0x1, 0x4, 0x10, 0x40, 0x0, 0x2, 0x4, 0x10, 0x40, 0x0, 0x1, 0x4,
   0x10, 0x40, 0x0, 0x1, 0x4, 0x20, 0x40, 0x0, 0x1, 0x4, 0x10, 0x40, 0x0, 0x1, 0x4, 0x10, 0x40,
   0x0, 0x3, 0x4, 0x10, 0x40, 0x0, 0x1, 0x4, 0x10, 0x40, 0x0, 0x1, 0x4, 0x20, 0x40, 0x0, 0x1,
   0x4, 0x10, 0x40, 0x0, 0x1, 0x4, 0x10, 0x40, 0x0, 0x2, 0x4, 0x10, 0x40, 0x0, 0x1, 0x4, 0x10,
   0x40, 0x0, 0x1, 0x4, 0x20, 0x40, 0x0, 0x1, 0x4, 0x10, 0x40, 0x0, 0x1, 0x4, 0x10, 0x40, 0x0,
   0x2, 0x4, 0x10, 0x40, 0x0, 0x1, 0x4, 0x10, 0x40, 0x0, 0x1, 0x4, 0x20, 0x40, 0x0, 0x1, 0x4,
   0x10, 0x40, 0x0, 0x1, 0x4, 0x10, 0x40, 0x0, 0x2, 0x4, 0x10, 0x40, 0x0, 0x1, 0x4, 0x10, 0x40,
   0x0, 0x1, 0x4, 0x20, 0x40, 0x0, 0x1, 0x4, 0x10, 0x40, 0x0, 0x1, 0x4, 0x10, 0x40, 0x0, 0x2,
   0x4, 0x10, 0x40, 0x0, 0x1, 0x4, 0x10, 0x40, 0x0, 0x1, 0x4, 0x20, 0x40, 0x0, 0x1, 0x4, 0x10,
   0x40, 0x0, 0x1, 0x4, 0x10, 0x40, 0x0, 0x3, 0x4, 0x10, 0x40, 0x0, 0x1, 0x4, 0x10, 0x40, 0x0,
   0x1, 0x4, 0x20, 0x40, 0x0, 0x1, 0x4, 0x10, 0x40, 0x0, 0x1, 0x4, 0x10, 0x40, 0x0, 0x2, 0x4,
   0x10, 0x40, 0x0, 0x1, 0x4, 0x10, 0x40, 0x0, 0x1, 0x4, 0x20, 0x40, 0x0, 0x1, 0x4, 0x10, 0x40,
   0x0, 0x1, 0x4, 0x10, 0x40, 0x0, 0x2, 0x4, 0x10, 0x40, 0x0, 0x1, 0x4, 0x10, 0x40, 0x0, 0x1,
   0x4, 0x20, 0x40, 0x0, 0x1, 0x4, 0x10, 0x40, 0x0, 0x1, 0x4, 0x10, 0x40, 0x0, 0x2, 0x4, 0x10,
   0x40, 0x0, 0x1, 0x4, 0x10, 0x40, 0x0, 0x1, 0x4, 0x20, 0x40, 0x0, 0x1, 0x4, 0x10, 0x40, 0x0,
   0x1, 0x4, 0x10, 0x40, 0x0, 0x2, 0x4, 0x10, 0x40, 0x0, 0x1, 0x4, 0x10, 0x40, 0x0, 0x1, 0x4,
   0x20, 0x40, 0x0, 0x1, 0x4, 0x10, 0x40, 0x0, 0x1, 0x4, 0x10, 0x40, 0x0, 0x3, 0x4, 0x10, 0x40,
   0x0, 0x1, 0x4, 0x10, 0x40, 0x0, 0x1, 0x4, 0x20, 0x40, 0x0, 0x1, 0x4, 0x10, 0x40, 0x0, 0x1,
   0x4, 0x10, 0x40, 0x0, 0x2, 0x4, 0x10, 0x40, 0x0, 0x1, 0x4, 0x10, 0x40, 0x0, 0x1, 0x4, 0x20,
   0x40, 0x0, 0x1, 0x4, 0x10, 0x40, 0x0, 0x1, 0x4, 0x10, 0x40, 0x0, 0x2, 0x4, 0x10, 0x40, 0x0,
   0x1, 0x4, 0x10, 0x40, 0x0, 0x1, 0x4, 0x20, 0x40, 0x0, 0x1, 0x4, 0x10, 0x40, 0x0, 0x1, 0x4,
   0x10, 0x40, 0x0, 0x2, 0x4, 0x10, 0x40, 0x0, 0x1, 0x4, 0x10, 0x40, 0x0, 0x1, 0x4, 0x20, 0x40,
   0x0, 0x1, 0x4, 0x10, 0x40, 0x0, 0x1, 0x4, 0x10, 0x40, 0x0, 0x2, 0x4, 0x10, 0x40, 0x0, 0x1,
   0x4, 0x10, 0x40, 0x0, 0x1, 0x4, 0x20, 0x40, 0x0, 0x1, 0x4, 0x10, 0x40, 0x0, 0x1, 0x4, 0x10,
   0x40, 0x0, 0x3, 0x4, 0x10, 0x40, 0x0, 0x1, 0x4, 0x10, 0x40, 0x0, 0x1, 0x4, 0x20, 0x40, 0x0,
   0x1, 0x4, 0x10, 0x40, 0x0, 0x1, 0x4, 0x10, 0x40, 0x0, 0x2, 0x4, 0x10, 0x40, 0x0, 0x1, 0x4,
   0x10, 0x40, 0x0, 0x1, 0x4, 0x20, 0x40, 0x0, 0x1, 0x4, 0x10, 0x40, 0x0, 0x1, 0x4, 0x10, 0x40,
   0x0, 0x2, 0x4, 0x10, 0x40, 0x0, 0x1, 0x4, 0x10, 0x40, 0x0, 0x1, 0x4, 0x20, 0x40, 0x0, 0x1,
   0x4, 0x10, 0x40, 0x0, 0x1, 0x4, 0x10, 0x40, 0x0, 0x2, 0x4, 0x10, 0x40, 0x0, 0x1, 0x4, 0x10,
   0x40, 0x0, 0x1, 0x4, 0x20, 0x40, 0x0, 0x1, 0x4, 0x10, 0x40, 0x0, 0x1, 0x4, 0x10, 0x40, 0x0,
   0x2, 0x4, 0x10, 0x40, 0x0, 0x1, 0x4, 0x10, 0x40, 0x0, 0x1, 0x4, 0x20, 0x40, 0x0, 0x1, 0x4,
   0x10, 0x40, 0x0, 0x1, 0x4, 0x10, 0x40, 0x0, 0x3, 0x4, 0x10, 0x40, 0x0, 0x1, 0x4, 0x10, 0x40,
   0x0, 0x1, 0x4, 0x20, 0x40, 0x0, 0x1, 0x4, 0x10, 0x40, 0x0, 0x1, 0x4, 0x10, 0x40, 0x0, 0x2,
   0x4, 0x10, 0x40, 0x0, 0x1, 0x4, 0x10, 0x40, 0x0, 0x1, 0x4, 0x20, 0x40, 0x0, 0x1, 0x4, 0x10,
   0x40, 0x0, 0x1, 0x4, 0x10, 0x40, 0x0, 0x2, 0x4, 0x10, 0x40, 0x0, 0x1, 0x4, 0x10, 0x40, 0x0,
   0x1, 0x4, 0x20, 0x40, 0x0, 0x1, 0x4, 0x10, 0x40, 0x0, 0x1, 0x4, 0x10, 0x40, 0x0, 0x2, 0x4,
   0x10, 0x40, 0x0, 0x1, 0x4, 0x10, 0x40, 0x0, 0x1, 0x4, 0x20, 0x40, 0x0, 0x1, 0x4, 0x10, 0x40,
   0x0, 0x1, 0x4, 0x10, 0x40, 0x0, 0x2, 0x4, 0x10, 0x40, 0x0, 0x1, 0x4, 0x10, 0x40, 0x0, 0x1,
   0x4, 0x20, 0x40, 0x0, 0x1, 0x4, 0x10, 0x40, 0x0, 0x1, 0x4, 0x10, 0x40, 0x0, 0x3, 0x4, 0x10,
   0x40, 0x0, 0x1, 0x4, 0x10, 0x40, 0x0, 0x1, 0x4, 0x20, 0x40, 0x0, 0x1, 0x4, 0x10, 0x40, 0x0,
   0x1, 0x4, 0x10, 0x40, 0x0, 0x2, 0x4, 0x10, 0x40, 0x0, 0x1, 0x4, 0x10, 0x40, 0x0, 0x1, 0x4,
   0x20, 0x40, 0x0, 0x1, 0x4, 0x10, 0x40, 0x0, 0x1, 0x4, 0x10, 0x40, 0x0, 0x2, 0x4, 0x10, 0x40,
   0x0, 0x1, 0x4, 0x10, 0x40, 0x0, 0x1, 0x4, 0x20, 0x40, 0x0, 0x1, 0x4, 0x10, 0x40, 0x0, 0x1,
   0x4, 0x10, 0x40, 0x0, 0x2, 0x4, 0x10, 0x40, 0x0, 0x1, 0x4, 0x10, 0x40, 0x0, 0x1, 0x4, 0x20,
   0x40, 0x0, 0x1, 0x4, 0x10, 0x40, 0x0, 0x1, 0x4, 0x10, 0x40, 0x0, 0x2, 0x4, 0x10, 0x40, 0x0,
   0x1, 0x4, 0x10, 0x40, 0x0, 0x1, 0x4, 0x20, 0x40, 0x0, 0x1, 0x4, 0x10, 0x40, 0x0, 0x1, 0x4,
   0x10, 0x40, 0x0, 0x3, 0x4, 0x10, 0x40, 0x0, 0x1, 0x4, 0x10, 0x40, 0x0, 0x1, 0x4, 0x20, 0x40,
   0x0, 0x1, 0x4, 0x10, 0x40, 0x0, 0x1, 0x4, 0x10, 0x40, 0x0, 0x2, 0x4, 0x10, 0x40, 0x0, 0x1,
   0x4, 0x10, 0x40, 0x0, 0x1, 0x4, 0x20, 0x40, 0x0, 0x1, 0x4, 0x10, 0x40, 0x0, 0x1, 0x4, 0x10,
   0x40, 0x0, 0x2, 0x4, 0x10, 0x40, 0x0, 0x1, 0x4, 0x10, 0x40, 0x0, 0x1, 0x4, 0x20, 0x40, 0x0,
   0x1, 0x4, 0x10, 0x40, 0x0, 0x1, 0x4, 0x10, 0x40, 0x0, 0x2, 0x4, 0x10, 0x40, 0x0, 0x1, 0x4,
   0x10, 0x40, 0x0, 0x1, 0x4, 0x20, 0x40, 0x0, 0x1, 0x4, 0x10, 0x40, 0x0, 0x1, 0x4, 0x10, 0x40,
   0x0, 0x2, 0x4, 0x10, 0x40, 0x0, 0x1, 0x4, 0x10, 0x40, 0x0, 0x1, 0x4, 0x20, 0x40, 0x0, 0x1,
   0x4, 0x10, 0x40, 0x0, 0x1, 0x4, 0x10, 0x40, 0x0
  ]

/-- The table `const SINT8 factors[1024][2]`. -/
def factors : List (List Nat) :=
  [
   [0, 0], [1, 0], [0, 0], [2, 0], [0, 1], [1, 0], [0, 0], [3, 0], [0, 0], [1, 1], [0, 0],
   [2, 0], [0, 0], [1, 0], [0, 1], [4, 0], [0, 0], [1, 0], [0, 0], [2, 1], [0, 0], [1, 0],
   [0, 0], [3, 0], [0, 2], [1, 0], [0, 0], [2, 0], [0, 0], [1, 1], [0, 0], [5, 0], [0, 0],
   [1, 0], [0, 1], [2, 0], [0, 0], [1, 0], [0, 0], [3, 1], [0, 0], [1, 0], [0, 0], [2, 0],
   [0, 1], [1, 0], [0, 0], [4, 0], [0, 0], [1, 2], [0, 0], [2, 0], [0, 0], [1, 0], [0, 1],
   [3, 0], [0, 0], [1, 0], [0, 0], [2, 1], [0, 0], [1, 0], [0, 0], [6, 0], [0, 1], [1, 0],
   [0, 0], [2, 0], [0, 0], [1, 1], [0, 0], [3, 0], [0, 0], [1, 0], [0, 2], [2, 0], [0, 0],
   [1, 0], [0, 0], [4, 1], [0, 0], [1, 0], [0, 0], [2, 0], [0, 1], [1, 0], [0, 0], [3, 0],
   [0, 0], [1, 1], [0, 0], [2, 0], [0, 0], [1, 0], [0, 1], [5, 0], [0, 0], [1, 0], [0, 0],
   [2, 2], [0, 0], [1, 0], [0, 0], [3, 0], [0, 1], [1, 0], [0, 0], [2, 0], [0, 0], [1, 1],
   [0, 0], [4, 0], [0, 0], [1, 0], [0, 1], [2, 0], [0, 0], [1, 0], [0, 0], [3, 1], [0, 0],
   [1, 0], [0, 0], [2, 0], [0, 3], [1, 0], [0, 0], [7, 0], [0, 0], [1, 1], [0, 0], [2, 0],
   [0, 0], [1, 0], [0, 1], [3, 0], [0, 0], [1, 0], [0, 0], [2, 1], [0, 0], [1, 0], [0, 0],
   [4, 0], [0, 1], [1, 0], [0, 0], [2, 0], [0, 0], [1, 2], [0, 0], [3, 0], [0, 0], [1, 0],
   [0, 1], [2, 0], [0, 0], [1, 0], [0, 0], [5, 1], [0, 0], [1, 0], [0, 0], [2, 0], [0, 1],
   [1, 0], [0, 0], [3, 0], [0, 0], [1, 1], [0, 0], [2, 0], [0, 0], [1, 0], [0, 2], [4, 0],
   [0, 0], [1, 0], [0, 0], [2, 1], [0, 0], [1, 0], [0, 0], [3, 0], [0, 1], [1, 0], [0, 0],
   [2, 0], [0, 0], [1, 1], [0, 0], [6, 0], [0, 0], [1, 0], [0, 1], [2, 0], [0, 0], [1, 0],
   [0, 0], [3, 2], [0, 0], [1, 0], [0, 0], [2, 0], [0, 1], [1, 0], [0, 0], [4, 0], [0, 0],
   [1, 1], [0, 0], [2, 0], [0, 0], [1, 0], [0, 1], [3, 0], [0, 0], [1, 0], [0, 0], [2, 1],
   [0, 0], [1, 0], [0, 0], [5, 0], [0, 2], [1, 0], [0, 0], [2, 0], [0, 0], [1, 1], [0, 0],
   [3, 0], [0, 0], [1, 0], [0, 1], [2, 0], [0, 0], [1, 0], [0, 0], [4, 1], [0, 0], [1, 0],
   [0, 0], [2, 0], [0, 1], [1, 0], [0, 0], [3, 0], [0, 0], [1, 3], [0, 0], [2, 0], [0, 0],
   [1, 0], [0, 1], [8, 0], [0, 0], [1, 0], [0, 0], [2, 1], [0, 0], [1, 0], [0, 0], [3, 0],
   [0, 1], [1, 0], [0, 0], [2, 0], [0, 0], [1, 1], [0, 0], [4, 0], [0, 0], [1, 0], [0, 2],
   [2, 0], [0, 0], [1, 0], [0, 0], [3, 1], [0, 0], [1, 0], [0, 0], [2, 0], [0, 1], [1, 0],
   [0, 0], [5, 0], [0, 0], [1, 1], [0, 0], [2, 0], [0, 0], [1, 0], [0, 1], [3, 0], [0, 0],
   [1, 0], [0, 0], [2, 2], [0, 0], [1, 0], [0, 0], [4, 0], [0, 1], [1, 0], [0, 0], [2, 0],
   [0, 0], [1, 1], [0, 0], [3, 0], [0, 0], [1, 0], [0, 1], [2, 0], [0, 0], [1, 0], [0, 0],
   [6, 1], [0, 0], [1, 0], [0, 0], [2, 0], [0, 2], [1, 0], [0, 0], [3, 0], [0, 0], [1, 1],
   [0, 0], [2, 0], [0, 0], [1, 0], [0, 1], [4, 0], [0, 0], [1, 0], [0, 0], [2, 1], [0, 0],
   [1, 0], [0, 0], [3, 0], [0, 1], [1, 0], [0, 0], [2, 0], [0, 0], [1, 2], [0, 0], [5, 0],
   [0, 0], [1, 0], [0, 1], [2, 0], [0, 0], [1, 0], [0, 0], [3, 1], [0, 0], [1, 0], [0, 0],
   [2, 0], [0, 1], [1, 0], [0, 0], [4, 0], [0, 0], [1, 1], [0, 0], [2, 0], [0, 0], [1, 0],
   [0, 3], [3, 0], [0, 0], [1, 0], [0, 0], [2, 1], [0, 0], [1, 0], [0, 0], [7, 0], [0, 1],
   [1, 0], [0, 0], [2, 0], [0, 0], [1, 1], [0, 0], [3, 0], [0, 0], [1, 0], [0, 1], [2, 0],
   [0, 0], [1, 0], [0, 0], [4, 2], [0, 0], [1, 0], [0, 0], [2, 0], [0, 1], [1, 0], [0, 0],
   [3, 0], [0, 0], [1, 1], [0, 0], [2, 0], [0, 0], [1, 0], [0, 1], [5, 0], [0, 0], [1, 0],
   [0, 0], [2, 1], [0, 0], [1, 0], [0, 0], [3, 0], [0, 2], [1, 0], [0, 0], [2, 0], [0, 0],
   [1, 1], [0, 0], [4, 0], [0, 0], [1, 0], [0, 1], [2, 0], [0, 0], [1, 0], [0, 0], [3, 1],
   [0, 0], [1, 0], [0, 0], [2, 0], [0, 1], [1, 0], [0, 0], [6, 0], [0, 0], [1, 2], [0, 0],
   [2, 0], [0, 0], [1, 0], [0, 1], [3, 0], [0, 0], [1, 0], [0, 0], [2, 1], [0, 0], [1, 0],
   [0, 0], [4, 0], [0, 1], [1, 0], [0, 0], [2, 0], [0, 0], [1, 1], [0, 0], [3, 0], [0, 0],
   [1, 0], [0, 2], [2, 0], [0, 0], [1, 0], [0, 0], [5, 1], [0, 0], [1, 0], [0, 0], [2, 0],
   [0, 1], [1, 0], [0, 0], [3, 0], [0, 0], [1, 1], [0, 0], [2, 0], [0, 0], [1, 0], [0, 1],
   [4, 0], [0, 0], [1, 0], [0, 0], [2, 3], [0, 0], [1, 0], [0, 0], [3, 0], [0, 1], [1, 0],
   [0, 0], [2, 0], [0, 0], [1, 1], [0, 0], [9, 0], [0, 0], [1, 0], [0, 1], [2, 0], [0, 0],
   [1, 0], [0, 0], [3, 1], [0, 0], [1, 0], [0, 0], [2, 0], [0, 2], [1, 0], [0, 0], [4, 0],
   [0, 0], [1, 1], [0, 0], [2, 0], [0, 0], [1, 0], [0, 1], [3, 0], [0, 0], [1, 0], [0, 0],
   [2, 1], [0, 0], [1, 0], [0, 0], [5, 0], [0, 1], [1, 0], [0, 0], [2, 0], [0, 0], [1, 2],
   [0, 0], [3, 0], [0, 0], [1, 0], [0, 1], [2, 0], [0, 0], [1, 0], [0, 0], [4, 1], [0, 0],
   [1, 0], [0, 0], [2, 0], [0, 1], [1, 0], [0, 0], [3, 0], [0, 0], [1, 1], [0, 0], [2, 0],
   [0, 0], [1, 0], [0, 2], [6, 0], [0, 0], [1, 0], [0, 0], [2, 1], [0, 0], [1, 0], [0, 0],
   [3, 0], [0, 1], [1, 0], [0, 0], [2, 0], [0, 0], [1, 1], [0, 0], [4, 0], [0, 0], [1, 0],
   [0, 1], [2, 0], [0, 0], [1, 0], [0, 0], [3, 2], [0, 0], [1, 0], [0, 0], [2, 0], [0, 1],
   [1, 0], [0, 0], [5, 0], [0, 0], [1, 1], [0, 0], [2, 0], [0, 0], [1, 0], [0, 1], [3, 0],
   [0, 0], [1, 0], [0, 0], [2, 1], [0, 0], [1, 0], [0, 0], [4, 0], [0, 4], [1, 0], [0, 0],
   [2, 0], [0, 0], [1, 1], [0, 0], [3, 0], [0, 0], [1, 0], [0, 1], [2, 0], [0, 0], [1, 0],
   [0, 0], [7, 1], [0, 0], [1, 0], [0, 0], [2, 0], [0, 1], [1, 0], [0, 0], [3, 0], [0, 0],
   [1, 2], [0, 0], [2, 0], [0, 0], [1, 0], [0, 1], [4, 0], [0, 0], [1, 0], [0, 0], [2, 1],
   [0, 0], [1, 0], [0, 0], [3, 0], [0, 1], [1, 0], [0, 0], [2, 0], [0, 0], [1, 1], [0, 0],
   [5, 0], [0, 0], [1, 0], [0, 2], [2, 0], [0, 0], [1, 0], [0, 0], [3, 1], [0, 0], [1, 0],
   [0, 0], [2, 0], [0, 1], [1, 0], [0, 0], [4, 0], [0, 0], [1, 1], [0, 0], [2, 0], [0, 0],
   [1, 0], [0, 1], [3, 0], [0, 0], [1, 0], [0, 0], [2, 2], [0, 0], [1, 0], [0, 0], [6, 0],
   [0, 1], [1, 0], [0, 0], [2, 0], [0, 0], [1, 1], [0, 0], [3, 0], [0, 0], [1, 0], [0, 1],
   [2, 0], [0, 0], [1, 0], [0, 0], [4, 1], [0, 0], [1, 0], [0, 0], [2, 0], [0, 2], [1, 0],
   [0, 0], [3, 0], [0, 0], [1, 1], [0, 0], [2, 0], [0, 0], [1, 0], [0, 1], [5, 0], [0, 0],
   [1, 0], [0, 0], [2, 1], [0, 0], [1, 0], [0, 0], [3, 0], [0, 1], [1, 0], [0, 0], [2, 0],
   [0, 0], [1, 3], [0, 0], [4, 0], [0, 0], [1, 0], [0, 1], [2, 0], [0, 0], [1, 0], [0, 0],
   [3, 1], [0, 0], [1, 0], [0, 0], [2, 0], [0, 1], [1, 0], [0, 0], [8, 0], [0, 0], [1, 1],
   [0, 0], [2, 0], [0, 0], [1, 0], [0, 2], [3, 0], [0, 0], [1, 0], [0, 0], [2, 1], [0, 0],
   [1, 0], [0, 0], [4, 0], [0, 1], [1, 0], [0, 0], [2, 0], [0, 0], [1, 1], [0, 0], [3, 0],
   [0, 0], [1, 0], [0, 1], [2, 0], [0, 0], [1, 0], [0, 0], [5, 2], [0, 0], [1, 0], [0, 0],
   [2, 0], [0, 1], [1, 0], [0, 0], [3, 0], [0, 0], [1, 1], [0, 0], [2, 0], [0, 0], [1, 0],
   [0, 1], [4, 0], [0, 0], [1, 0], [0, 0], [2, 1], [0, 0], [1, 0], [0, 0], [3, 0], [0, 2],
   [1, 0], [0, 0], [2, 0], [0, 0], [1, 1], [0, 0], [6, 0], [0, 0], [1, 0], [0, 1], [2, 0],
   [0, 0], [1, 0], [0, 0], [3, 1], [0, 0], [1, 0], [0, 0], [2, 0], [0, 1], [1, 0], [0, 0],
   [4, 0], [0, 0], [1, 2], [0, 0], [2, 0], [0, 0], [1, 0], [0, 1], [3, 0], [0, 0], [1, 0],
   [0, 0], [2, 1], [0, 0], [1, 0], [0, 0], [5, 0], [0, 1], [1, 0], [0, 0], [2, 0], [0, 0],
   [1, 1], [0, 0], [3, 0], [0, 0], [1, 0], [0, 3], [2, 0], [0, 0], [1, 0], [0, 0], [4, 1],
   [0, 0], [1, 0], [0, 0], [2, 0], [0, 1], [1, 0], [0, 0], [3, 0], [0, 0], [1, 1], [0, 0],
   [2, 0], [0, 0], [1, 0], [0, 1], [7, 0], [0, 0], [1, 0], [0, 0], [2, 2], [0, 0], [1, 0],
   [0, 0], [3, 0], [0, 1], [1, 0], [0, 0], [2, 0], [0, 0], [1, 1], [0, 0], [4, 0], [0, 0],
   [1, 0], [0, 1], [2, 0], [0, 0], [1, 0], [0, 0], [3, 1], [0, 0], [1, 0], [0, 0], [2, 0],
   [0, 2], [1, 0], [0, 0], [5, 0], [0, 0], [1, 1], [0, 0], [2, 0], [0, 0], [1, 0], [0, 1],
   [3, 0], [0, 0], [1, 0], [0, 0], [2, 1], [0, 0], [1, 0], [0, 0], [4, 0], [0, 1], [1, 0],
   [0, 0], [2, 0], [0, 0], [1, 2], [0, 0], [3, 0], [0, 0], [1, 0], [0, 1], [2, 0], [0, 0],
   [1, 0], [0, 0], [6, 1], [0, 0], [1, 0], [0, 0], [2, 0], [0, 1], [1, 0], [0, 0], [3, 0],
   [0, 0], [1, 1], [0, 0], [2, 0], [0, 0], [1, 0], [0, 2], [4, 0], [0, 0], [1, 0], [0, 0],
   [2, 1], [0, 0], [1, 0], [0, 0], [3, 0], [0, 1], [1, 0], [0, 0], [2, 0], [0, 0], [1, 1],
   [0, 0], [5, 0], [0, 0], [1, 0], [0, 1], [2, 0], [0, 0], [1, 0], [0, 0], [3, 3], [0, 0],
   [1, 0], [0, 0], [2, 0], [0, 1], [1, 0], [0, 0], [4, 0], [0, 0], [1, 1], [0, 0], [2, 0],
   [0, 0], [1, 0], [0, 1], [3, 0], [0, 0], [1, 0], [0, 0], [2, 1], [0, 0], [1, 0], [0, 0],
   [10, 0]
  ]
/-! ## Lookup expressions -/

/-- The C expression `convert_table[j][k][i]`. -/
def convert_table_at (j k i : Nat) : Nat :=
  ((convert_table.getD j []).getD k []).getD i 0

/-- The C expression `packed_10000_zeros[b]`. -/
def packed_10000_zeros_at (b : Nat) : Nat :=
  packed_10000_zeros.getD b 0

/-- The C expression `factors[k][i]`. -/
def factors_at (k i : Nat) : Nat :=
  (factors.getD k []).getD i 0

/-- The lookup documented above `packed_10000_zeros`:
`((packed_10000_zeros[k>>3])>>(k&7))&3`. -/
def packed_zeros_lookup (k : Nat) : Nat :=
  ((packed_10000_zeros_at (k >>> 3)) >>> (k &&& 7)) &&& 3

/-- The other unpacking formula, which §4.1 of the specification sets against the documented
one: `((packed_10000_zeros[k>>3])>>(2*(k&3)))&3`. It follows the specification, not the
source; the source documents `packed_zeros_lookup` only. -/
def packed_zeros_lookup_spec_alt (k : Nat) : Nat :=
  ((packed_10000_zeros_at (k >>> 3)) >>> (2 * (k &&& 3))) &&& 3

/-- The value `k*2^(26+7*j)` named in the comment above `convert_table`. -/
def convert_value (j k : Nat) : Nat :=
  k * 2 ^ (26 + 7 * j)

/-! ## Executable table checks

Each check walks a table once, carrying the index of the current row, so that a property
of every row can be established by evaluation. -/

/-- Holds when `P i x` holds for every element `x` of the list, `i` being the position of
`x` counted from `start`. -/
def allIdx {α : Type} (P : Nat → α → Bool) : Nat → List α → Bool
  | _, [] => true
  | start, x :: xs => P start x && allIdx P (start + 1) xs

/-- Row `k` of block `j` has two words, the base `10^8` digits 0 and 1 of `k*2^(26+7*j)`. -/
def convertRowOk (j k : Nat) (row : List Nat) : Bool :=
  row.length == 2 &&
    row.getD 0 0 == convert_value j k % 10 ^ 8 &&
    row.getD 1 0 == convert_value j k / 10 ^ 8 % 10 ^ 8

/-- Block `j` has 128 rows, all of them passing `convertRowOk`. -/
def convertBlockOk (j : Nat) : Bool :=
  (convert_table.getD j []).length == 128 && allIdx (convertRowOk j) 0 (convert_table.getD j [])

/-- The 2-bit field at shift `s` of byte `b`, the byte being number `i` of the table: the
field belongs to `k = 8*i + s` and for `k > 0` holds the exponent of the greatest power of
ten dividing `k`. -/
def zerosFieldOk (i b s : Nat) : Bool :=
  8 * i + s == 0 ||
    ((8 * i + s) % 10 ^ ((b >>> s) &&& 3) == 0 && (8 * i + s) % 10 ^ (((b >>> s) &&& 3) + 1) != 0)

/-- All four even-index fields of byte `b` pass `zerosFieldOk`. -/
def zerosByteOk (i b : Nat) : Bool :=
  zerosFieldOk i b 0 && zerosFieldOk i b 2 && zerosFieldOk i b 4 && zerosFieldOk i b 6

/-- Row `i` of `factors` has two entries, the exponents of 2 and of 5 in `i + 1`. -/
def factorsRowOk (i : Nat) (row : List Nat) : Bool :=
  row.length == 2 &&
    (i + 1) % 2 ^ row.getD 0 0 == 0 && (i + 1) % 2 ^ (row.getD 0 0 + 1) != 0 &&
    (i + 1) % 5 ^ row.getD 1 0 == 0 && (i + 1) % 5 ^ (row.getD 1 0 + 1) != 0

/-! ## Table-driven decomposition -/

/-- Modelled from the spec: the window value of block `j` in the digit decomposition engine
of §4.2, which is not part of the embedded file. The low 26 bits of the significand are
taken as they are; above them the significand is cut into five windows of 7 bits, window
`j` starting at bit `26 + 7*j`. -/
def decompose_window (v j : Nat) : Nat :=
  (v / 2 ^ (26 + 7 * j)) % 128

/-- Modelled from the spec: the accumulator of the low digit group in §4.2, the low 26 bits
plus the first word of the table entry of every window. -/
def decompose_d0 (v : Nat) : Nat :=
  v % 2 ^ 26 + ((List.range 5).map fun j => convert_table_at j (decompose_window v j) 0).sum

/-- Modelled from the spec: the accumulator of the next digit group in §4.2, the sum of the
second (carry) words of the table entries of every window. -/
def decompose_d1 (v : Nat) : Nat :=
  ((List.range 5).map fun j => convert_table_at j (decompose_window v j) 1).sum

/-- Modelled from the spec: `decompose` of §4.2 for a significand below `10^16`, after carry
propagation between the two accumulators: the pair (high digit group, low digit group). -/
def decompose (v : Nat) : Nat × Nat :=
  (decompose_d1 v + decompose_d0 v / 10 ^ 8, decompose_d0 v % 10 ^ 8)


/-! ## Rounding to a target precision -/

/-- Modelled from the spec: the rounding modes enumerated in §4.3; the rounding kernel is
not part of the embedded file. -/
inductive RoundingMode where
  | nearest_even
  | nearest_away
  | toward_zero
  | toward_positive
  | toward_negative
  | away_from_zero
  deriving DecidableEq

/-- Modelled from the spec: the result triple of `round_to_precision` in §4.3. -/
structure RoundResult where
  rounded_significand : Nat
  inexact_flag : Bool
  exponent_adjustment : Nat
  deriving DecidableEq

/-- Modelled from the spec: the base `10^8` positional value of a digit group sequence
(§4.2), least significant group first. -/
def recompose : List Nat → Nat
  | [] => 0
  | g :: gs => g + 10 ^ 8 * recompose gs

/-- Count of decimal digits of `n` by repeated division, `fuel` bounding the number of
steps. -/
def digit_count_aux : Nat → Nat → Nat
  | 0, _ => 0
  | fuel + 1, n => if n = 0 then 0 else digit_count_aux fuel (n / 10) + 1

/-- Modelled from the spec: the number of decimal digits of a significand (none for 0). -/
def digit_count (n : Nat) : Nat :=
  digit_count_aux n n

/-- Modelled from the spec: the tie-break rule of each rounding mode of §4.3 at the cut
point, for kept digits `q`, discarded portion `r` and `u` one unit of the last kept place.
The significand is an unsigned magnitude, so rounding toward positive infinity rounds the
magnitude up whenever a nonzero digit is discarded and rounding toward negative infinity
truncates. -/
def rounds_up (mode : RoundingMode) (q r u : Nat) : Bool :=
  match mode with
  | .nearest_even => decide (u < 2 * r) || (2 * r == u && q % 2 == 1)
  | .nearest_away => decide (u ≤ 2 * r)
  | .toward_zero => false
  | .toward_positive => r != 0
  | .toward_negative => false
  | .away_from_zero => r != 0

/-- Modelled from the spec: the cut and the rounding decision of §4.3 on a significand `v`.
The cut point keeps the leading `target_precision` digits `q` and discards the portion `r`
below it; the rounding mode decides whether the kept digits are incremented. -/
def rounded_digits (v target_precision : Nat) (rounding_mode : RoundingMode) : Nat :=
  let d := digit_count v - target_precision
  let q := v / 10 ^ d
  let r := v % 10 ^ d
  if rounds_up rounding_mode q r (10 ^ d) then q + 1 else q

/-- Modelled from the spec: `round_to_precision` of §4.3. The kept digits are rounded by
`rounded_digits`; when the increment carries into one digit more than `target_precision`,
the new trailing zero is dropped and `exponent_adjustment` is incremented. The result is
inexact when a nonzero digit was discarded. -/
def round_to_precision (digit_groups : List Nat) (target_precision : Nat)
    (rounding_mode : RoundingMode) : RoundResult :=
  let v := recompose digit_groups
  let r := v % 10 ^ (digit_count v - target_precision)
  let s := rounded_digits v target_precision rounding_mode
  if target_precision < digit_count s then
    { rounded_significand := s / 10, inexact_flag := r != 0, exponent_adjustment := 0 + 1 }
  else
    { rounded_significand := s, inexact_flag := r != 0, exponent_adjustment := 0 }

/-- Modelled from the spec: the number that the result of `round_to_precision` stands for
at the scale of its input, the rounded significand shifted by the discarded digits and by
the exponent adjustment. -/
def rounded_value (digit_groups : List Nat) (target_precision : Nat)
    (rounding_mode : RoundingMode) : Nat :=
  (round_to_precision digit_groups target_precision rounding_mode).rounded_significand *
    10 ^ (digit_count (recompose digit_groups) - target_precision +
      (round_to_precision digit_groups target_precision rounding_mode).exponent_adjustment)

theorem allIdx_getD {α : Type} (P : Nat → α → Bool) (d : α) :
    ∀ (l : List α) (start : Nat), allIdx P start l = true →
      ∀ n, n < l.length → P (start + n) (l.getD n d) = true := by
  intro l
  induction l with
  | nil => intro start _ n hn; simp at hn
  | cons x xs ih =>
    intro start h n hn
    simp only [allIdx, Bool.and_eq_true] at h
    cases n with
    | zero => simpa using h.1
    | succ m =>
      have hm := ih (start + 1) h.2 m (by simpa using hn)
      simpa [Nat.add_assoc, Nat.add_comm 1 m] using hm

set_option maxRecDepth 1000000 in
theorem convertBlockOk_all :
    convertBlockOk 0 = true ∧ convertBlockOk 1 = true ∧ convertBlockOk 2 = true ∧
      convertBlockOk 3 = true ∧ convertBlockOk 4 = true := by
  decide!

theorem convert_table_dims (j : Nat) (hj : j < 5) :
    convert_table.length = 5 ∧ (convert_table.getD j []).length = 128 := by
  obtain ⟨h0, h1, h2, h3, h4⟩ := convertBlockOk_all
  have hb : convertBlockOk j = true := by
    interval_cases j
    · exact h0
    · exact h1
    · exact h2
    · exact h3
    · exact h4
  simp only [convertBlockOk, Bool.and_eq_true, beq_iff_eq] at hb
  exact ⟨rfl, hb.1⟩

theorem convert_table_row (j k : Nat) (hj : j < 5) (hk : k < 128) :
    convert_table_at j k 0 = convert_value j k % 10 ^ 8 ∧
      convert_table_at j k 1 = convert_value j k / 10 ^ 8 % 10 ^ 8 := by
  obtain ⟨h0, h1, h2, h3, h4⟩ := convertBlockOk_all
  have hb : convertBlockOk j = true := by
    interval_cases j
    · exact h0
    · exact h1
    · exact h2
    · exact h3
    · exact h4
  simp only [convertBlockOk, Bool.and_eq_true, beq_iff_eq] at hb
  have hrow := allIdx_getD (convertRowOk j) [] _ 0 hb.2 k (by rw [hb.1]; exact hk)
  simp only [convertRowOk, Bool.and_eq_true, beq_iff_eq, Nat.zero_add] at hrow
  exact ⟨hrow.1.2, hrow.2⟩


theorem convert_table_pair (j k : Nat) (hj : j < 5) (hk : k < 128) :
    convert_table_at j k 0 + convert_table_at j k 1 * 10 ^ 8 = convert_value j k % 10 ^ 16 := by
  obtain ⟨h0, h1⟩ := convert_table_row j k hj hk
  rw [h0, h1]
  have h := Nat.mod_mul (a := 10 ^ 8) (b := 10 ^ 8) (x := convert_value j k)
  have e : (10 : Nat) ^ 16 = 10 ^ 8 * 10 ^ 8 := by norm_num
  rw [e, h, Nat.mul_comm]

set_option maxRecDepth 1000000 in
theorem packed_10000_zeros_length : packed_10000_zeros.length = 1250 := by
  decide!

set_option maxRecDepth 1000000 in
theorem zerosByteOk_all : allIdx zerosByteOk 0 packed_10000_zeros = true := by
  decide!

set_option maxRecDepth 1000000 in
theorem factors_length : factors.length = 1024 := by
  decide!

set_option maxRecDepth 1000000 in
theorem factorsRowOk_all : allIdx factorsRowOk 0 factors = true := by
  decide!

theorem isGreatest_pow_dvd (p n z : Nat) (h1 : p ^ z ∣ n) (h2 : ¬ p ^ (z + 1) ∣ n) :
    IsGreatest {i : Nat | p ^ i ∣ n} z := by
  refine ⟨h1, ?_⟩
  intro i hi
  by_contra hlt
  push_neg at hlt
  exact h2 (dvd_trans (pow_dvd_pow p hlt) hi)

theorem packed_zeros_lookup_dvd (k : Nat) (hpos : 0 < k) (hk : k < 10000) (he : k % 2 = 0) :
    10 ^ packed_zeros_lookup k ∣ k ∧ ¬ 10 ^ (packed_zeros_lookup k + 1) ∣ k := by
  have hi : k / 8 < packed_10000_zeros.length := by
    rw [packed_10000_zeros_length]; omega
  have hb := allIdx_getD zerosByteOk 0 _ 0 zerosByteOk_all (k / 8) hi
  have e1 : k >>> 3 = k / 8 := by rw [Nat.shiftRight_eq_div_pow]
  have e2 : k &&& 7 = k % 8 := Nat.and_pow_two_sub_one_eq_mod k 3
  simp only [packed_zeros_lookup, packed_10000_zeros_at, e1, e2]
  simp only [zerosByteOk, zerosFieldOk, Bool.and_eq_true, Bool.or_eq_true, beq_iff_eq,
    bne_iff_ne, Nat.zero_add] at hb
  obtain ⟨⟨⟨f0, f2⟩, f4⟩, f6⟩ := hb
  have hs : k % 8 = 0 ∨ k % 8 = 2 ∨ k % 8 = 4 ∨ k % 8 = 6 := by omega
  rcases hs with s | s | s | s
  · have hk8 : 8 * (k / 8) + 0 = k := by omega
    rw [s]; rw [hk8] at f0
    rcases f0 with f | f
    · omega
    · exact ⟨Nat.dvd_of_mod_eq_zero f.1, fun h => f.2 (Nat.mod_eq_zero_of_dvd h)⟩
  · have hk8 : 8 * (k / 8) + 2 = k := by omega
    rw [s]; rw [hk8] at f2
    rcases f2 with f | f
    · omega
    · exact ⟨Nat.dvd_of_mod_eq_zero f.1, fun h => f.2 (Nat.mod_eq_zero_of_dvd h)⟩
  · have hk8 : 8 * (k / 8) + 4 = k := by omega
    rw [s]; rw [hk8] at f4
    rcases f4 with f | f
    · omega
    · exact ⟨Nat.dvd_of_mod_eq_zero f.1, fun h => f.2 (Nat.mod_eq_zero_of_dvd h)⟩
  · have hk8 : 8 * (k / 8) + 6 = k := by omega
    rw [s]; rw [hk8] at f6
    rcases f6 with f | f
    · omega
    · exact ⟨Nat.dvd_of_mod_eq_zero f.1, fun h => f.2 (Nat.mod_eq_zero_of_dvd h)⟩

theorem factors_row (k : Nat) (hk : k < 1024) :
    (2 ^ factors_at k 0 ∣ k + 1 ∧ ¬ 2 ^ (factors_at k 0 + 1) ∣ k + 1) ∧
      (5 ^ factors_at k 1 ∣ k + 1 ∧ ¬ 5 ^ (factors_at k 1 + 1) ∣ k + 1) := by
  have hb := allIdx_getD factorsRowOk [] _ 0 factorsRowOk_all k (by rw [factors_length]; exact hk)
  simp only [factorsRowOk, Bool.and_eq_true, beq_iff_eq, bne_iff_ne, Nat.zero_add] at hb
  obtain ⟨⟨⟨⟨_, a1⟩, a2⟩, b1⟩, b2⟩ := hb
  exact ⟨⟨Nat.dvd_of_mod_eq_zero a1, fun h => a2 (Nat.mod_eq_zero_of_dvd h)⟩,
    ⟨Nat.dvd_of_mod_eq_zero b1, fun h => b2 (Nat.mod_eq_zero_of_dvd h)⟩⟩


theorem decompose_window_entry (v j : Nat) (hj : j < 5) (hv : v < 10 ^ 16) :
    convert_table_at j (decompose_window v j) 0 + convert_table_at j (decompose_window v j) 1 * 10 ^ 8
      = decompose_window v j * 2 ^ (26 + 7 * j) := by
  have hk : decompose_window v j < 128 := Nat.mod_lt _ (by norm_num)
  rw [convert_table_pair j _ hj hk, convert_value]
  apply Nat.mod_eq_of_lt
  have h1 : decompose_window v j * 2 ^ (26 + 7 * j) ≤ v := by
    unfold decompose_window
    calc v / 2 ^ (26 + 7 * j) % 128 * 2 ^ (26 + 7 * j)
        ≤ v / 2 ^ (26 + 7 * j) * 2 ^ (26 + 7 * j) := Nat.mul_le_mul_right _ (Nat.mod_le _ _)
      _ ≤ v := Nat.div_mul_le_self _ _
  exact lt_of_le_of_lt h1 hv

theorem window_sum (v : Nat) (hv : v < 2 ^ 61) :
    v % 2 ^ 26 + (decompose_window v 0 * 2 ^ (26 + 7 * 0) + (decompose_window v 1 * 2 ^ (26 + 7 * 1) +
      (decompose_window v 2 * 2 ^ (26 + 7 * 2) + (decompose_window v 3 * 2 ^ (26 + 7 * 3) +
        decompose_window v 4 * 2 ^ (26 + 7 * 4))))) = v := by
  have h1 : v / 2 ^ (26 + 7 * 1) = v / 67108864 / 128 := by
    rw [Nat.div_div_eq_div_mul]; norm_num
  have h2 : v / 2 ^ (26 + 7 * 2) = v / 67108864 / 128 / 128 := by
    rw [Nat.div_div_eq_div_mul, Nat.div_div_eq_div_mul]; norm_num
  have h3 : v / 2 ^ (26 + 7 * 3) = v / 67108864 / 128 / 128 / 128 := by
    rw [Nat.div_div_eq_div_mul, Nat.div_div_eq_div_mul, Nat.div_div_eq_div_mul]; norm_num
  have h4 : v / 2 ^ (26 + 7 * 4) = v / 67108864 / 128 / 128 / 128 / 128 := by
    rw [Nat.div_div_eq_div_mul, Nat.div_div_eq_div_mul, Nat.div_div_eq_div_mul,
      Nat.div_div_eq_div_mul]; norm_num
  simp only [decompose_window, h1, h2, h3, h4]
  norm_num at hv ⊢
  omega

theorem decompose_accumulators (v : Nat) (hv : v < 10 ^ 16) :
    decompose_d0 v + decompose_d1 v * 10 ^ 8 = v := by
  have e0 := decompose_window_entry v 0 (by norm_num) hv
  have e1 := decompose_window_entry v 1 (by norm_num) hv
  have e2 := decompose_window_entry v 2 (by norm_num) hv
  have e3 := decompose_window_entry v 3 (by norm_num) hv
  have e4 := decompose_window_entry v 4 (by norm_num) hv
  have hs := window_sum v (lt_trans hv (by norm_num))
  have hr : List.range 5 = [0, 1, 2, 3, 4] := by decide
  simp only [decompose_d0, decompose_d1, hr, List.map_cons, List.map_nil, List.sum_cons,
    List.sum_nil]
  rw [← e0, ← e1, ← e2, ← e3, ← e4] at hs
  omega

/-! ## Claims -/

/-- C1: for every block `j < 5`, slot `k < 128` and digit index `i < 2`, the stored word
`convert_table[j][k][i]` is digit `i` in base `10^8` of `k*2^(26+7*j)`. -/
theorem convert_table_entry_is_digit (j k i : Nat) (hj : j < 5) (hk : k < 128) (hi : i < 2) :
    convert_table_at j k i = convert_value j k / (10 ^ 8) ^ i % 10 ^ 8 := by
  obtain ⟨h0, h1⟩ := convert_table_row j k hj hk
  interval_cases i
  · simpa using h0
  · simpa using h1

/-- Witness for C1 at the last row of the last block, where the second stored word is
`78286107`. -/
theorem convert_table_entry_is_digit_witness :
    4 < 5 ∧ 127 < 128 ∧ 1 < 2 ∧
      convert_table_at 4 127 1 = convert_value 4 127 / (10 ^ 8) ^ 1 % 10 ^ 8 :=
  ⟨by decide, by decide, by decide,
    convert_table_entry_is_digit 4 127 1 (by decide) (by decide) (by decide)⟩


/-- C2 (as stated, refuted): row `k = 72` of block `j = 3` stores `{61583616, 1330991}`,
whose recombination `61583616 + 1330991 * 10^8` is not `72 * 2^47`. -/
theorem convert_table_pair_not_exact :
    3 < 5 ∧ 72 < 128 ∧
      convert_value 3 72 ≠ convert_table_at 3 72 0 + convert_table_at 3 72 1 * 10 ^ 8 := by
  decide!

/-- C2 (amended): for every block `j < 5` and slot `k < 128` the stored pair recombines to
`k*2^(26+7*j)` modulo `10^16`, and to `k*2^(26+7*j)` itself whenever that value is below
`10^16`. -/
theorem convert_table_pair_exact_below (j k : Nat) (hj : j < 5) (hk : k < 128) :
    convert_table_at j k 0 + convert_table_at j k 1 * 10 ^ 8 = convert_value j k % 10 ^ 16 ∧
      (convert_value j k < 10 ^ 16 →
        convert_value j k = convert_table_at j k 0 + convert_table_at j k 1 * 10 ^ 8) := by
  have h := convert_table_pair j k hj hk
  refine ⟨h, fun hlt => ?_⟩
  rw [h, Nat.mod_eq_of_lt hlt]

/-- Witness for the amended C2 at block 3, slot 71, the last row of block 3 whose value is
below `10^16`. -/
theorem convert_table_pair_exact_below_witness :
    3 < 5 ∧ 71 < 128 ∧
      convert_value 3 71 = convert_table_at 3 71 0 + convert_table_at 3 71 1 * 10 ^ 8 :=
  ⟨by decide, by decide,
    (convert_table_pair_exact_below 3 71 (by decide) (by decide)).2 (by decide!)⟩

/-- C3: for every `v < 10^16` the table-driven decomposition is lossless: both digit groups
are below `10^8` and `hi * 10^8 + lo = v`. -/
theorem decompose_lossless (v : Nat) (hv : v < 10 ^ 16) :
    (decompose v).2 < 10 ^ 8 ∧ (decompose v).1 < 10 ^ 8 ∧
      (decompose v).1 * 10 ^ 8 + (decompose v).2 = v := by
  have h := decompose_accumulators v hv
  simp only [decompose]
  norm_num at hv h ⊢
  omega

/-- Witness for C3 at the largest supported significand, `10^16 - 1`. -/
theorem decompose_lossless_witness :
    9999999999999999 < 10 ^ 16 ∧
      (decompose 9999999999999999).1 * 10 ^ 8 + (decompose 9999999999999999).2
        = 9999999999999999 :=
  ⟨by norm_num, (decompose_lossless 9999999999999999 (by norm_num)).2.2⟩

/-- C4 (as stated, refuted): at the even index `k = 0` the lookup yields `3`, which is not
the greatest `i` with `10^i` dividing `0`, every power of ten dividing `0`. -/
theorem packed_zeros_lookup_zero_not_greatest :
    0 < 10000 ∧ 0 % 2 = 0 ∧ packed_zeros_lookup 0 = 3 ∧
      ¬ IsGreatest {i : Nat | 10 ^ i ∣ 0} (packed_zeros_lookup 0) := by
  have h3 : packed_zeros_lookup 0 = 3 := by decide!
  refine ⟨by decide, by decide, h3, ?_⟩
  intro h
  have h4 : 4 ≤ packed_zeros_lookup 0 := h.2 (show (10 : Nat) ^ 4 ∣ 0 from dvd_zero _)
  omega

/-- C4 (amended): for every even `k` with `0 < k < 10000`, the value decoded from the
packed table is the greatest `i` such that `10^i` divides `k`. -/
theorem packed_zeros_lookup_greatest (k : Nat) (hpos : 0 < k) (hk : k < 10000)
    (he : k % 2 = 0) :
    IsGreatest {i : Nat | 10 ^ i ∣ k} (packed_zeros_lookup k) := by
  obtain ⟨h1, h2⟩ := packed_zeros_lookup_dvd k hpos hk he
  exact isGreatest_pow_dvd 10 k _ h1 h2

/-- Witness for the amended C4 at `k = 9000`. -/
theorem packed_zeros_lookup_greatest_witness :
    0 < 9000 ∧ 9000 < 10000 ∧ 9000 % 2 = 0 ∧
      IsGreatest {i : Nat | 10 ^ i ∣ 9000} (packed_zeros_lookup 9000) :=
  ⟨by decide, by decide, by decide,
    packed_zeros_lookup_greatest 9000 (by decide) (by decide) (by decide)⟩

/-- C5 (as stated, refuted): `factors[3]` is `{2, 0}`, so its first entry is not `3` with
its trailing zeros stripped, and `factors[4]` is `{0, 1}` although `4` has no trailing
decimal zero. -/
theorem factors_not_stripped :
    3 < 1024 ∧ 4 < 1024 ∧ factors_at 3 0 = 2 ∧ factors_at 3 1 = 0 ∧
      factors_at 3 0 ≠ 3 / 10 ^ factors_at 3 1 ∧
      factors_at 4 1 = 1 ∧ ¬ 10 ^ factors_at 4 1 ∣ 4 := by
  decide!

/-- C5 (amended): for every index `k < 1024`, `factors[k][0]` is the greatest `a` with `2^a`
dividing `k + 1` and `factors[k][1]` is the greatest `b` with `5^b` dividing `k + 1`. -/
theorem factors_prime_exponents (k : Nat) (hk : k < 1024) :
    IsGreatest {a : Nat | 2 ^ a ∣ k + 1} (factors_at k 0) ∧
      IsGreatest {b : Nat | 5 ^ b ∣ k + 1} (factors_at k 1) := by
  obtain ⟨⟨a1, a2⟩, ⟨b1, b2⟩⟩ := factors_row k hk
  exact ⟨isGreatest_pow_dvd 2 _ _ a1 a2, isGreatest_pow_dvd 5 _ _ b1 b2⟩

/-- Witness for the amended C5 at `k = 999`, where `k + 1 = 2^3 * 5^3`. -/
theorem factors_prime_exponents_witness :
    999 < 1024 ∧ IsGreatest {a : Nat | 2 ^ a ∣ 999 + 1} (factors_at 999 0) ∧
      IsGreatest {b : Nat | 5 ^ b ∣ 999 + 1} (factors_at 999 1) :=
  ⟨by decide, factors_prime_exponents 999 (by decide)⟩

/-- C6: every word stored in `convert_table` is a base `10^8` digit: for `j < 5`, `k < 128`
and `i < 2`, `0 ≤ convert_table[j][k][i] ≤ 99999999`. -/
theorem convert_table_word_bound (j k i : Nat) (hj : j < 5) (hk : k < 128) (hi : i < 2) :
    0 ≤ convert_table_at j k i ∧ convert_table_at j k i ≤ 99999999 := by
  obtain ⟨h0, h1⟩ := convert_table_row j k hj hk
  have b0 : convert_value j k % 10 ^ 8 < 10 ^ 8 := Nat.mod_lt _ (by norm_num)
  have b1 : convert_value j k / 10 ^ 8 % 10 ^ 8 < 10 ^ 8 := Nat.mod_lt _ (by norm_num)
  refine ⟨Nat.zero_le _, ?_⟩
  interval_cases i
  · rw [h0]; norm_num at b0 ⊢; omega
  · rw [h1]; norm_num at b1 ⊢; omega

/-- Witness for C6 at block 2, slot 91, first word. -/
theorem convert_table_word_bound_witness :
    2 < 5 ∧ 91 < 128 ∧ 0 < 2 ∧ convert_table_at 2 91 0 ≤ 99999999 :=
  ⟨by decide, by decide, by decide,
    (convert_table_word_bound 2 91 0 (by decide) (by decide) (by decide)).2⟩

/-- C7: `packed_10000_zeros` has exactly 1250 bytes; for every `k < 10000` the byte index
`k >> 3` lies inside the table, and every byte of the table is the byte of some
`k < 10000`. -/
theorem packed_10000_zeros_covers :
    packed_10000_zeros.length = 1250 ∧
      (∀ k : Nat, k < 10000 → k >>> 3 < packed_10000_zeros.length) ∧
      (∀ b : Nat, b < packed_10000_zeros.length → ∃ k : Nat, k < 10000 ∧ k >>> 3 = b) := by
  have hl := packed_10000_zeros_length
  refine ⟨hl, ?_, ?_⟩
  · intro k hk
    rw [hl, Nat.shiftRight_eq_div_pow]
    norm_num
    omega
  · intro b hb
    rw [hl] at hb
    refine ⟨8 * b, by omega, ?_⟩
    rw [Nat.shiftRight_eq_div_pow]
    norm_num


/-! ## Rounding lemmas -/

theorem digit_count_aux_le_iff :
    ∀ (fuel n k : Nat), n ≤ fuel → (digit_count_aux fuel n ≤ k ↔ n < 10 ^ k) := by
  intro fuel
  induction fuel with
  | zero =>
    intro n k hn
    have h0 : n = 0 := by omega
    subst h0
    simp [digit_count_aux]
  | succ f ih =>
    intro n k hn
    by_cases h0 : n = 0
    · subst h0
      simp [digit_count_aux]
    · simp only [digit_count_aux, h0, if_false]
      cases k with
      | zero =>
        simp only [pow_zero, Nat.lt_one_iff]
        constructor
        · intro h; omega
        · intro h; exact absurd h h0
      | succ k' =>
        have hdiv : n / 10 ≤ f := by omega
        rw [Nat.add_le_add_iff_right, ih (n / 10) k' hdiv, pow_succ]
        exact Nat.div_lt_iff_lt_mul (by norm_num)

theorem digit_count_le_iff (n k : Nat) : digit_count n ≤ k ↔ n < 10 ^ k :=
  digit_count_aux_le_iff n n k (Nat.le_refl n)

theorem lt_pow_digit_count (n : Nat) : n < 10 ^ digit_count n :=
  (digit_count_le_iff n _).1 (Nat.le_refl _)

theorem digit_count_mono {a b : Nat} (h : a ≤ b) : digit_count a ≤ digit_count b :=
  (digit_count_le_iff a _).2 (lt_of_le_of_lt h (lt_pow_digit_count b))

theorem pow_pred_digit_count_le (n : Nat) (hn : n ≠ 0) : 10 ^ (digit_count n - 1) ≤ n := by
  by_contra h
  push_neg at h
  have h1 := (digit_count_le_iff n _).2 h
  have h2 : digit_count n = 0 := by omega
  have h3 := lt_pow_digit_count n
  rw [h2] at h3
  simp at h3
  exact hn h3

theorem kept_le_rounded_digits (v p : Nat) (m : RoundingMode) :
    v / 10 ^ (digit_count v - p) ≤ rounded_digits v p m := by
  simp only [rounded_digits]
  split_ifs <;> omega

theorem rounded_digits_le_succ (v p : Nat) (m : RoundingMode) :
    rounded_digits v p m ≤ v / 10 ^ (digit_count v - p) + 1 := by
  simp only [rounded_digits]
  split_ifs <;> omega

theorem kept_lt_pow (v p : Nat) : v / 10 ^ (digit_count v - p) < 10 ^ p := by
  rw [Nat.div_lt_iff_lt_mul (by positivity), ← pow_add]
  exact lt_of_lt_of_le (lt_pow_digit_count v) (Nat.pow_le_pow_right (by norm_num) (by omega))

theorem rounded_value_eq (gs : List Nat) (p : Nat) (m : RoundingMode) (hp : 1 ≤ p) :
    rounded_value gs p m =
      rounded_digits (recompose gs) p m * 10 ^ (digit_count (recompose gs) - p) := by
  simp only [rounded_value, round_to_precision]
  split_ifs with h
  · have h1 : 10 ^ p ≤ rounded_digits (recompose gs) p m := by
      by_contra hc
      push_neg at hc
      have := (digit_count_le_iff _ _).2 hc
      omega
    have h2 := rounded_digits_le_succ (recompose gs) p m
    have h3 := kept_lt_pow (recompose gs) p
    have h4 : rounded_digits (recompose gs) p m = 10 ^ p := by omega
    obtain ⟨p', rfl⟩ : ∃ p', p = p' + 1 := ⟨p - 1, by omega⟩
    rw [h4]
    simp only [pow_succ, Nat.zero_add, pow_one]
    rw [Nat.mul_div_cancel _ (by norm_num : 0 < 10)]
    ring
  · simp

theorem rounded_value_zero (gs : List Nat) (m : RoundingMode) : rounded_value gs 0 m = 0 := by
  have h2 := rounded_digits_le_succ (recompose gs) 0 m
  have h3 := kept_lt_pow (recompose gs) 0
  simp only [pow_zero, Nat.lt_one_iff] at h3
  have h4 : rounded_digits (recompose gs) 0 m ≤ 1 := by omega
  simp only [rounded_value, round_to_precision]
  split_ifs with h
  · have : rounded_digits (recompose gs) 0 m / 10 = 0 := by omega
    simp [this]
  · have h5 := (digit_count_le_iff (rounded_digits (recompose gs) 0 m) 0).1 (by omega)
    simp only [pow_zero, Nat.lt_one_iff] at h5
    simp [h5]

theorem rounded_value_le_pow (v p : Nat) (m : RoundingMode) :
    rounded_digits v p m * 10 ^ (digit_count v - p) ≤ 10 ^ digit_count v := by
  have h2 := rounded_digits_le_succ v p m
  have hq : v / 10 ^ (digit_count v - p) < 10 ^ (digit_count v - (digit_count v - p)) := by
    rw [Nat.div_lt_iff_lt_mul (by positivity), ← pow_add]
    have e : digit_count v - (digit_count v - p) + (digit_count v - p) = digit_count v := by
      omega
    rw [e]
    exact lt_pow_digit_count v
  calc rounded_digits v p m * 10 ^ (digit_count v - p)
      ≤ 10 ^ (digit_count v - (digit_count v - p)) * 10 ^ (digit_count v - p) :=
        Nat.mul_le_mul_right _ (by omega)
    _ = 10 ^ digit_count v := by
        rw [← pow_add]
        congr 1
        omega

theorem pow_pred_le_rounded_value (v p : Nat) (m : RoundingMode) (hp : 1 ≤ p) (hv : v ≠ 0) :
    10 ^ (digit_count v - 1) ≤ rounded_digits v p m * 10 ^ (digit_count v - p) := by
  have h1 := kept_le_rounded_digits v p m
  have h2 := pow_pred_digit_count_le v hv
  have hq : 10 ^ (digit_count v - 1 - (digit_count v - p)) ≤ v / 10 ^ (digit_count v - p) := by
    rw [Nat.le_div_iff_mul_le (by positivity), ← pow_add]
    have e : digit_count v - 1 - (digit_count v - p) + (digit_count v - p)
        = digit_count v - 1 := by omega
    rw [e]
    exact h2
  calc 10 ^ (digit_count v - 1)
      = 10 ^ (digit_count v - 1 - (digit_count v - p)) * 10 ^ (digit_count v - p) := by
        rw [← pow_add]
        congr 1
        omega
    _ ≤ rounded_digits v p m * 10 ^ (digit_count v - p) :=
        Nat.mul_le_mul_right _ (le_trans hq h1)

theorem rounds_up_mono (m : RoundingMode) (q ra rb u : Nat) (hr : ra < rb)
    (h : rounds_up m q ra u = true) : rounds_up m q rb u = true := by
  cases m <;> simp [rounds_up] at h ⊢ <;> omega

theorem rounded_digits_mono (a b p : Nat) (m : RoundingMode)
    (hd : digit_count a = digit_count b) (hab : a ≤ b) :
    rounded_digits a p m ≤ rounded_digits b p m := by
  have hq : a / 10 ^ (digit_count b - p) ≤ b / 10 ^ (digit_count b - p) :=
    Nat.div_le_div_right hab
  by_cases hlt : a / 10 ^ (digit_count b - p) < b / 10 ^ (digit_count b - p)
  · have h1 := rounded_digits_le_succ a p m
    have h2 := kept_le_rounded_digits b p m
    rw [hd] at h1
    omega
  · have he : a / 10 ^ (digit_count b - p) = b / 10 ^ (digit_count b - p) := by omega
    rcases Nat.eq_or_lt_of_le hab with hEq | hLt
    · rw [hEq]
    · have ha := Nat.div_add_mod a (10 ^ (digit_count b - p))
      have hb := Nat.div_add_mod b (10 ^ (digit_count b - p))
      have hr : a % 10 ^ (digit_count b - p) < b % 10 ^ (digit_count b - p) := by
        rw [he] at ha
        omega
      simp only [rounded_digits, hd, he]
      split_ifs with h1 h2
      · exact Nat.le_refl _
      · exact absurd (rounds_up_mono m _ _ _ _ hr h1) h2
      · omega
      · exact Nat.le_refl _


/-- C8: `round_to_precision` is monotone. For a fixed rounding mode and target precision and
significands `a < b` given as digit group sequences, the number that the rounded result of
`a` stands for is at most the number that the rounded result of `b` stands for. -/
theorem round_to_precision_monotone (ga gb : List Nat) (p : Nat) (m : RoundingMode)
    (hab : recompose ga < recompose gb) :
    rounded_value ga p m ≤ rounded_value gb p m := by
  rcases Nat.eq_zero_or_pos p with hp | hp
  · subst hp
    rw [rounded_value_zero, rounded_value_zero]
  · rw [rounded_value_eq ga p m hp, rounded_value_eq gb p m hp]
    have hdc := digit_count_mono (Nat.le_of_lt hab)
    rcases Nat.eq_or_lt_of_le hdc with hEq | hLt
    · rw [hEq]
      exact Nat.mul_le_mul_right _ (rounded_digits_mono _ _ p m hEq (Nat.le_of_lt hab))
    · have hb0 : recompose gb ≠ 0 := by omega
      calc rounded_digits (recompose ga) p m * 10 ^ (digit_count (recompose ga) - p)
          ≤ 10 ^ digit_count (recompose ga) := rounded_value_le_pow _ p m
        _ ≤ 10 ^ (digit_count (recompose gb) - 1) :=
            Nat.pow_le_pow_right (by norm_num) (by omega)
        _ ≤ rounded_digits (recompose gb) p m * 10 ^ (digit_count (recompose gb) - p) :=
            pow_pred_le_rounded_value _ p m hp hb0

/-- Witness for C8 at digits `994` and `999`, precision 2, round to nearest even, where the
results stand for `990` and `1000`. -/
theorem round_to_precision_monotone_witness :
    recompose [994] < recompose [999] ∧
      rounded_value [994] 2 .nearest_even ≤ rounded_value [999] 2 .nearest_even :=
  ⟨by decide, round_to_precision_monotone [994] [999] 2 .nearest_even (by decide)⟩

theorem convert_value_lt_iff (j k : Nat) (hj : j < 5) (hk : k < 128) :
    convert_value j k < 10 ^ 16 ↔ (j ≤ 2 ∨ (j = 3 ∧ k ≤ 71) ∨ k = 0) := by
  unfold convert_value
  interval_cases j <;> norm_num <;> omega

/-- C11: for every index `i < 1024`, `factors[i]` holds the prime-factor exponents of
`i + 1`: `factors[i][0]` is the greatest `a` with `2^a` dividing `i + 1` and `factors[i][1]`
is the greatest `b` with `5^b` dividing `i + 1`. -/
theorem factors_exponents_of_succ (i : Nat) (hi : i < 1024) :
    IsGreatest {a : Nat | 2 ^ a ∣ i + 1} (factors_at i 0) ∧
      IsGreatest {b : Nat | 5 ^ b ∣ i + 1} (factors_at i 1) := by
  have h := factors_row i hi
  exact ⟨isGreatest_pow_dvd 2 (i + 1) (factors_at i 0) h.1.1 h.1.2,
    isGreatest_pow_dvd 5 (i + 1) (factors_at i 1) h.2.1 h.2.2⟩

/-- Witness for C11 at the three rows the claim names: `factors[1023] = {10, 0}`,
`factors[624] = {0, 4}` and `factors[999] = {3, 3}`. -/
theorem factors_exponents_of_succ_witness :
    (1023 < 1024 ∧ factors_at 1023 0 = 10 ∧ factors_at 1023 1 = 0 ∧
        IsGreatest {a : Nat | 2 ^ a ∣ 1023 + 1} (factors_at 1023 0)) ∧
      (624 < 1024 ∧ factors_at 624 0 = 0 ∧ factors_at 624 1 = 4 ∧
        IsGreatest {b : Nat | 5 ^ b ∣ 624 + 1} (factors_at 624 1)) ∧
      (999 < 1024 ∧ factors_at 999 0 = 3 ∧ factors_at 999 1 = 3 ∧
        IsGreatest {a : Nat | 2 ^ a ∣ 999 + 1} (factors_at 999 0) ∧
        IsGreatest {b : Nat | 5 ^ b ∣ 999 + 1} (factors_at 999 1)) :=
  ⟨⟨by decide, by decide!, by decide!, (factors_exponents_of_succ 1023 (by decide)).1⟩,
    ⟨by decide, by decide!, by decide!, (factors_exponents_of_succ 624 (by decide)).2⟩,
    ⟨by decide, by decide!, by decide!, factors_exponents_of_succ 999 (by decide)⟩⟩

/-- C12: for every block `j < 5` and slot `k < 128`, the two stored words recombine to
`k*2^(26+7*j)` exactly when that value is below `10^16`, which is exactly when `j ≤ 2`, or
`j = 3` and `k ≤ 71`, or `k = 0`; a nonzero third base `10^8` digit arises only in blocks
`j ≥ 3`. -/
theorem convert_table_pair_exact_iff (j k : Nat) (hj : j < 5) (hk : k < 128) :
    (convert_table_at j k 0 + 10 ^ 8 * convert_table_at j k 1 = convert_value j k ↔
        convert_value j k < 10 ^ 16) ∧
      (convert_value j k < 10 ^ 16 ↔ (j ≤ 2 ∨ (j = 3 ∧ k ≤ 71) ∨ k = 0)) ∧
      (convert_value j k / 10 ^ 16 % 10 ^ 8 ≠ 0 → 3 ≤ j) := by
  have hp := convert_table_pair j k hj hk
  have hiff := convert_value_lt_iff j k hj hk
  refine ⟨?_, hiff, ?_⟩
  · rw [Nat.mul_comm, hp]
    exact Nat.mod_eq_iff_lt (by norm_num)
  · intro h3
    by_contra hlt
    have hj2 : j ≤ 2 := by omega
    have hv : convert_value j k < 10 ^ 16 := hiff.2 (Or.inl hj2)
    rw [Nat.div_eq_of_lt hv] at h3
    exact h3 rfl

/-- Witness for C12 at block 3, slot 72, the first row whose value reaches `10^16`: the
stored pair does not recombine to the value there. -/
theorem convert_table_pair_exact_iff_witness :
    3 < 5 ∧ 72 < 128 ∧ ¬ convert_value 3 72 < 10 ^ 16 ∧
      ¬ convert_table_at 3 72 0 + 10 ^ 8 * convert_table_at 3 72 1 = convert_value 3 72 :=
  ⟨by decide, by decide, by decide!,
    fun h => absurd ((convert_table_pair_exact_iff 3 72 (by decide) (by decide)).1.1 h)
      (by decide!)⟩


theorem sum_mod_congr (l a b c d e M : Nat) :
    (l + (a % M + (b % M + (c % M + (d % M + e % M))))) % M
      = (l + (a + (b + (c + (d + e))))) % M := by
  have h : l + (a % M + (b % M + (c % M + (d % M + e % M)))) ≡
      l + (a + (b + (c + (d + e)))) [MOD M] :=
    (Nat.ModEq.refl l).add ((Nat.mod_modEq a M).add ((Nat.mod_modEq b M).add
      ((Nat.mod_modEq c M).add ((Nat.mod_modEq d M).add (Nat.mod_modEq e M)))))
  exact h

theorem sum_mod_eq_iff (l a b c d e M : Nat) (hM : 0 < M) :
    l + (a % M + (b % M + (c % M + (d % M + e % M)))) = l + (a + (b + (c + (d + e)))) ↔
      a < M ∧ b < M ∧ c < M ∧ d < M ∧ e < M := by
  have ha := Nat.mod_le a M
  have hb := Nat.mod_le b M
  have hc := Nat.mod_le c M
  have hd := Nat.mod_le d M
  have he := Nat.mod_le e M
  have ia := Nat.mod_eq_iff_lt (m := a) (Nat.pos_iff_ne_zero.1 hM)
  have ib := Nat.mod_eq_iff_lt (m := b) (Nat.pos_iff_ne_zero.1 hM)
  have ic := Nat.mod_eq_iff_lt (m := c) (Nat.pos_iff_ne_zero.1 hM)
  have id := Nat.mod_eq_iff_lt (m := d) (Nat.pos_iff_ne_zero.1 hM)
  have ie := Nat.mod_eq_iff_lt (m := e) (Nat.pos_iff_ne_zero.1 hM)
  constructor
  · intro h
    exact ⟨ia.1 (by omega), ib.1 (by omega), ic.1 (by omega), id.1 (by omega),
      ie.1 (by omega)⟩
  · rintro ⟨h1, h2, h3, h4, h5⟩
    rw [ia.2 h1, ib.2 h2, ic.2 h3, id.2 h4, ie.2 h5]

theorem window_lt (v j : Nat) : v / 2 ^ (26 + 7 * j) % 128 < 128 :=
  Nat.mod_lt _ (by norm_num)

theorem window_pair (v j : Nat) (hj : j < 5) :
    convert_table_at j (v / 2 ^ (26 + 7 * j) % 128) 0 +
        10 ^ 8 * convert_table_at j (v / 2 ^ (26 + 7 * j) % 128) 1
      = convert_value j (v / 2 ^ (26 + 7 * j) % 128) % 10 ^ 16 := by
  rw [Nat.mul_comm (10 ^ 8)]
  exact convert_table_pair j _ hj (window_lt v j)

/-- C13: for every `v < 2^61`, with `l = v mod 2^26` and window values
`k_j = (v div 2^(26+7*j)) mod 128`, the table-driven sum
`l + sum_j (convert_table[j][k_j][0] + 10^8 * convert_table[j][k_j][1])` is congruent to `v`
modulo `10^16`, and it equals `v` exactly when every contribution `k_j*2^(26+7*j)` is below
`10^16`, that is, has no more than two base `10^8` digits. -/
theorem table_sum_congruent (v : Nat) (hv : v < 2 ^ 61) :
    (v % 2 ^ 26 + ((List.range 5).map fun j =>
        convert_table_at j (v / 2 ^ (26 + 7 * j) % 128) 0 +
          10 ^ 8 * convert_table_at j (v / 2 ^ (26 + 7 * j) % 128) 1).sum) % 10 ^ 16
        = v % 10 ^ 16 ∧
      (v % 2 ^ 26 + ((List.range 5).map fun j =>
        convert_table_at j (v / 2 ^ (26 + 7 * j) % 128) 0 +
          10 ^ 8 * convert_table_at j (v / 2 ^ (26 + 7 * j) % 128) 1).sum = v ↔
        ∀ j : Nat, j < 5 → convert_value j (v / 2 ^ (26 + 7 * j) % 128) < 10 ^ 16) := by
  have hs := window_sum v hv
  simp only [decompose_window] at hs
  have hr : List.range 5 = [0, 1, 2, 3, 4] := by decide
  simp only [hr, List.map_cons, List.map_nil, List.sum_cons, List.sum_nil, Nat.add_zero]
  rw [window_pair v 0 (by norm_num), window_pair v 1 (by norm_num),
    window_pair v 2 (by norm_num), window_pair v 3 (by norm_num),
    window_pair v 4 (by norm_num)]
  simp only [convert_value]
  constructor
  · rw [sum_mod_congr, hs]
  · have key := sum_mod_eq_iff (v % 2 ^ 26)
      (v / 2 ^ (26 + 7 * 0) % 128 * 2 ^ (26 + 7 * 0))
      (v / 2 ^ (26 + 7 * 1) % 128 * 2 ^ (26 + 7 * 1))
      (v / 2 ^ (26 + 7 * 2) % 128 * 2 ^ (26 + 7 * 2))
      (v / 2 ^ (26 + 7 * 3) % 128 * 2 ^ (26 + 7 * 3))
      (v / 2 ^ (26 + 7 * 4) % 128 * 2 ^ (26 + 7 * 4)) (10 ^ 16) (by norm_num)
    rw [hs] at key
    rw [key]
    constructor
    · rintro ⟨h0, h1, h2, h3, h4⟩ j hj
      interval_cases j
      · exact h0
      · exact h1
      · exact h2
      · exact h3
      · exact h4
    · intro h
      exact ⟨h 0 (by norm_num), h 1 (by norm_num), h 2 (by norm_num), h 3 (by norm_num),
        h 4 (by norm_num)⟩

/-- Witness for C13 at `v = 72 * 2^47`, where window 3 holds 72: the sum stays congruent to
`v` modulo `10^16` and is not `v`, the contribution of window 3 having a third digit. -/
theorem table_sum_congruent_witness :
    72 * 2 ^ 47 < 2 ^ 61 ∧
      (72 * 2 ^ 47 % 2 ^ 26 + ((List.range 5).map fun j =>
        convert_table_at j (72 * 2 ^ 47 / 2 ^ (26 + 7 * j) % 128) 0 +
          10 ^ 8 * convert_table_at j (72 * 2 ^ 47 / 2 ^ (26 + 7 * j) % 128) 1).sum) % 10 ^ 16
        = 72 * 2 ^ 47 % 10 ^ 16 ∧
      ¬ (72 * 2 ^ 47 % 2 ^ 26 + ((List.range 5).map fun j =>
        convert_table_at j (72 * 2 ^ 47 / 2 ^ (26 + 7 * j) % 128) 0 +
          10 ^ 8 * convert_table_at j (72 * 2 ^ 47 / 2 ^ (26 + 7 * j) % 128) 1).sum
        = 72 * 2 ^ 47) :=
  ⟨by norm_num, (table_sum_congruent (72 * 2 ^ 47) (by norm_num)).1,
    fun h => absurd ((table_sum_congruent (72 * 2 ^ 47) (by norm_num)).2.1 h 3 (by norm_num))
      (by norm_num [convert_value])⟩

/-- C18: accumulating table entries never overflows a 32-bit unsigned word. For every
`l < 2^26` and window values `k0 .. k4` below 128, `d0 = l + sum_j convert_table[j][k_j][0]`
is below `6*10^8 < 2^32`, the carry `d0 div 10^8` is at most 5, and
`sum_j convert_table[j][k_j][1] + d0 div 10^8` is below `2^32`. -/
theorem accumulators_fit_uint32 (l k0 k1 k2 k3 k4 : Nat) (hl : l < 2 ^ 26)
    (h0 : k0 < 128) (h1 : k1 < 128) (h2 : k2 < 128) (h3 : k3 < 128) (h4 : k4 < 128) :
    l + (convert_table_at 0 k0 0 + convert_table_at 1 k1 0 + convert_table_at 2 k2 0 +
        convert_table_at 3 k3 0 + convert_table_at 4 k4 0) < 6 * 10 ^ 8 ∧
      6 * 10 ^ 8 < 2 ^ 32 ∧
      (l + (convert_table_at 0 k0 0 + convert_table_at 1 k1 0 + convert_table_at 2 k2 0 +
        convert_table_at 3 k3 0 + convert_table_at 4 k4 0)) / 10 ^ 8 ≤ 5 ∧
      (convert_table_at 0 k0 1 + convert_table_at 1 k1 1 + convert_table_at 2 k2 1 +
        convert_table_at 3 k3 1 + convert_table_at 4 k4 1) +
        (l + (convert_table_at 0 k0 0 + convert_table_at 1 k1 0 + convert_table_at 2 k2 0 +
          convert_table_at 3 k3 0 + convert_table_at 4 k4 0)) / 10 ^ 8 < 2 ^ 32 := by
  have r0 := convert_table_row 0 k0 (by norm_num) h0
  have r1 := convert_table_row 1 k1 (by norm_num) h1
  have r2 := convert_table_row 2 k2 (by norm_num) h2
  have r3 := convert_table_row 3 k3 (by norm_num) h3
  have r4 := convert_table_row 4 k4 (by norm_num) h4
  have b : ∀ x : Nat, x % 10 ^ 8 < 10 ^ 8 := fun x => Nat.mod_lt _ (by norm_num)
  have a0 := b (convert_value 0 k0)
  have a1 := b (convert_value 1 k1)
  have a2 := b (convert_value 2 k2)
  have a3 := b (convert_value 3 k3)
  have a4 := b (convert_value 4 k4)
  have c0 := b (convert_value 0 k0 / 10 ^ 8)
  have c1 := b (convert_value 1 k1 / 10 ^ 8)
  have c2 := b (convert_value 2 k2 / 10 ^ 8)
  have c3 := b (convert_value 3 k3 / 10 ^ 8)
  have c4 := b (convert_value 4 k4 / 10 ^ 8)
  rw [← r0.1] at a0
  rw [← r1.1] at a1
  rw [← r2.1] at a2
  rw [← r3.1] at a3
  rw [← r4.1] at a4
  rw [← r0.2] at c0
  rw [← r1.2] at c1
  rw [← r2.2] at c2
  rw [← r3.2] at c3
  rw [← r4.2] at c4
  norm_num at hl a0 a1 a2 a3 a4 c0 c1 c2 c3 c4 ⊢
  omega

/-- Witness for C18 at the largest low part and the last slot of every block. -/
theorem accumulators_fit_uint32_witness :
    67108863 < 2 ^ 26 ∧ 127 < 128 ∧
      67108863 + (convert_table_at 0 127 0 + convert_table_at 1 127 0 +
        convert_table_at 2 127 0 + convert_table_at 3 127 0 + convert_table_at 4 127 0)
        < 6 * 10 ^ 8 :=
  ⟨by norm_num, by decide,
    (accumulators_fit_uint32 67108863 127 127 127 127 127 (by norm_num) (by decide) (by decide)
      (by decide) (by decide) (by decide)).1⟩


theorem ten_pow_min_greatest (n a b : Nat) (ha : 2 ^ a ∣ n) (ha' : ¬ 2 ^ (a + 1) ∣ n)
    (hb : 5 ^ b ∣ n) (hb' : ¬ 5 ^ (b + 1) ∣ n) :
    IsGreatest {z : Nat | 10 ^ z ∣ n} (min a b) := by
  apply isGreatest_pow_dvd
  · have e : (10 : Nat) ^ min a b = 2 ^ min a b * 5 ^ min a b := by
      rw [← Nat.mul_pow]
    rw [e]
    have hc : Nat.Coprime (2 ^ min a b) (5 ^ min a b) :=
      Nat.Coprime.pow _ _ (by norm_num)
    exact Nat.Coprime.mul_dvd_of_dvd_of_dvd hc
      (dvd_trans (pow_dvd_pow 2 (min_le_left a b)) ha)
      (dvd_trans (pow_dvd_pow 5 (min_le_right a b)) hb)
  · intro h
    have h2 : 2 ^ (min a b + 1) ∣ n :=
      dvd_trans (pow_dvd_pow_of_dvd (by norm_num : (2 : Nat) ∣ 10) _) h
    have h5 : 5 ^ (min a b + 1) ∣ n :=
      dvd_trans (pow_dvd_pow_of_dvd (by norm_num : (5 : Nat) ∣ 10) _) h
    rcases le_total a b with hab | hab
    · rw [min_eq_left hab] at h2
      exact ha' h2
    · rw [min_eq_right hab] at h5
      exact hb' h5

theorem cofactor_coprime_ten (n a b : Nat) (ha : 2 ^ a ∣ n)
    (ha' : ¬ 2 ^ (a + 1) ∣ n) (hb : 5 ^ b ∣ n) (hb' : ¬ 5 ^ (b + 1) ∣ n) :
    Nat.Coprime (n / (2 ^ a * 5 ^ b)) 10 := by
  have hc : Nat.Coprime (2 ^ a) (5 ^ b) := Nat.Coprime.pow _ _ (by norm_num)
  have hD : 2 ^ a * 5 ^ b ∣ n := Nat.Coprime.mul_dvd_of_dvd_of_dvd hc ha hb
  obtain ⟨q, hq⟩ := hD
  have hDpos : 0 < 2 ^ a * 5 ^ b := by positivity
  have hdiv : n / (2 ^ a * 5 ^ b) = q := by
    rw [hq, Nat.mul_div_cancel_left _ hDpos]
  rw [hdiv]
  have h2 : ¬ 2 ∣ q := by
    rintro ⟨t, ht⟩
    apply ha'
    refine ⟨5 ^ b * t, ?_⟩
    rw [hq, ht, pow_succ]
    ring
  have h5 : ¬ 5 ∣ q := by
    rintro ⟨t, ht⟩
    apply hb'
    refine ⟨2 ^ a * t, ?_⟩
    rw [hq, ht, pow_succ]
    ring
  have c2 : Nat.Coprime q 2 :=
    Nat.Coprime.symm ((Nat.Prime.coprime_iff_not_dvd Nat.prime_two).2 h2)
  have c5 : Nat.Coprime q 5 :=
    Nat.Coprime.symm ((Nat.Prime.coprime_iff_not_dvd Nat.prime_five).2 h5)
  have e : (10 : Nat) = 2 * 5 := by norm_num
  rw [e]
  exact Nat.Coprime.mul_right c2 c5

/-- C14: for every index `i < 1024`, `min(factors[i][0], factors[i][1])` is the number of
trailing decimal zeros of `i + 1`, the greatest `z` with `10^z` dividing `i + 1`, and
`i + 1` divided by `2^factors[i][0] * 5^factors[i][1]` is coprime to 10. -/
theorem factors_min_trailing_zeros (i : Nat) (hi : i < 1024) :
    IsGreatest {z : Nat | 10 ^ z ∣ i + 1} (min (factors_at i 0) (factors_at i 1)) ∧
      Nat.Coprime ((i + 1) / (2 ^ factors_at i 0 * 5 ^ factors_at i 1)) 10 := by
  obtain ⟨⟨a1, a2⟩, ⟨b1, b2⟩⟩ := factors_row i hi
  exact ⟨ten_pow_min_greatest (i + 1) _ _ a1 a2 b1 b2,
    cofactor_coprime_ten (i + 1) _ _ a1 a2 b1 b2⟩

/-- Witness for C14 at `i = 799`, where `i + 1 = 800 = 2^5 * 5^2` has two trailing zeros. -/
theorem factors_min_trailing_zeros_witness :
    799 < 1024 ∧ factors_at 799 0 = 5 ∧ factors_at 799 1 = 2 ∧
      IsGreatest {z : Nat | 10 ^ z ∣ 799 + 1} (min (factors_at 799 0) (factors_at 799 1)) ∧
      Nat.Coprime ((799 + 1) / (2 ^ factors_at 799 0 * 5 ^ factors_at 799 1)) 10 :=
  ⟨by decide, by decide!, by decide!, factors_min_trailing_zeros 799 (by decide)⟩

theorem packed_zeros_lookup_field (k : Nat) (he : k % 2 = 0) :
    packed_zeros_lookup k = packed_10000_zeros_at (k / 2 / 4) / 4 ^ (k / 2 % 4) % 4 := by
  have e1 : k >>> 3 = k / 2 / 4 := by
    rw [Nat.shiftRight_eq_div_pow, Nat.div_div_eq_div_mul]
  have e2 : k &&& 7 = 2 * (k / 2 % 4) := by
    have h := Nat.and_pow_two_sub_one_eq_mod k 3
    norm_num at h
    rw [h]
    omega
  have e3 : ∀ x : Nat, x &&& 3 = x % 4 := fun x => Nat.and_pow_two_sub_one_eq_mod x 2
  simp only [packed_zeros_lookup, e1, e2, e3, Nat.shiftRight_eq_div_pow, pow_mul]
  norm_num

/-- C15: the two unpacking formulas are not interchangeable on the stored data. At the even
index `k = 10` the shift by `2*(k&3)` decodes 0 and the shift by `k&7` decodes 1; and for
every even `k` the shift by `k&7` reads the dense 2-bit field number `(k/2) mod 4` of byte
`(k/2) div 4`. -/
theorem packed_zeros_formulas_differ :
    (10 < 10000 ∧ 10 % 2 = 0 ∧ packed_zeros_lookup_spec_alt 10 = 0 ∧
        packed_zeros_lookup 10 = 1 ∧
        packed_zeros_lookup_spec_alt 10 ≠ packed_zeros_lookup 10) ∧
      ∀ k : Nat, k % 2 = 0 →
        packed_zeros_lookup k = packed_10000_zeros_at (k / 2 / 4) / 4 ^ (k / 2 % 4) % 4 :=
  ⟨by decide!, packed_zeros_lookup_field⟩

/-- C16: the raw lookup expression is valid for even indices only. At the odd index `k = 9`
it yields 2, although every odd `k` has no trailing decimal zero: 0 is the greatest `i`
with `10^i` dividing an odd `k`. -/
theorem packed_zeros_lookup_odd_invalid :
    (9 < 10000 ∧ 9 % 2 = 1 ∧ packed_zeros_lookup 9 = 2 ∧ packed_zeros_lookup 9 ≠ 0) ∧
      ∀ k : Nat, k % 2 = 1 → IsGreatest {i : Nat | 10 ^ i ∣ k} 0 := by
  refine ⟨by decide!, ?_⟩
  intro k hk
  apply isGreatest_pow_dvd
  · simp
  · intro h
    have h10 : 10 ∣ k := by simpa using h
    omega

/-- C17: for every even `k < 10000` the decoded count is 3 exactly when `k` is a multiple
of 1000; the entry for `k = 0` decodes to 3; and no entry decodes to a value above 3. -/
theorem packed_zeros_lookup_three_iff (k : Nat) (hk : k < 10000) (he : k % 2 = 0) :
    (packed_zeros_lookup k = 3 ↔ 1000 ∣ k) ∧ packed_zeros_lookup 0 = 3 ∧
      packed_zeros_lookup k ≤ 3 := by
  have h0 : packed_zeros_lookup 0 = 3 := by decide!
  have hle : packed_zeros_lookup k ≤ 3 := Nat.and_le_right
  refine ⟨?_, h0, hle⟩
  rcases Nat.eq_zero_or_pos k with hz | hpos
  · subst hz
    simp [h0]
  · obtain ⟨h1, h2⟩ := packed_zeros_lookup_dvd k hpos hk he
    constructor
    · intro h3
      rw [h3] at h1
      simpa using h1
    · intro hd
      by_contra hne
      have hlt : packed_zeros_lookup k + 1 ≤ 3 := by omega
      apply h2
      have hp : (10 : Nat) ^ (packed_zeros_lookup k + 1) ∣ 10 ^ 3 := pow_dvd_pow 10 hlt
      exact dvd_trans hp (by simpa using hd)

/-- Witness for C17 at `k = 7000`, a multiple of 1000, whose entry decodes to 3. -/
theorem packed_zeros_lookup_three_iff_witness :
    7000 < 10000 ∧ 7000 % 2 = 0 ∧ 1000 ∣ 7000 ∧ packed_zeros_lookup 7000 = 3 :=
  ⟨by decide, by decide, by decide,
    (packed_zeros_lookup_three_iff 7000 (by decide) (by decide)).1.2 (by decide)⟩

end Libbid
